import Mathlib

/-!
Shallow embedding of the rule-based clinical risk engine
(`src/ai/ai.service.ts` together with the configuration and record types of
`src/ai/ai.types.ts`).

Conventions of the embedding:
* timestamps are epoch milliseconds, modelled as `Int`; "now" is an explicit
  parameter of every analyzer (the source reads the wall clock at entry);
* JavaScript numbers are modelled as `ℚ` (all arithmetic in the engine is
  exact decimal arithmetic on small values; no claim involves rounding beyond
  `Math.round`, which we model exactly as round-half-up);
* optional fields of input records are `Option ℚ`; a JS comparison
  `undefined >= t` or `undefined <= t` evaluates to `false`, which `jsGe` /
  `jsLe` reproduce;
* the human-readable reason / recommendation strings are modelled as tagged
  values carrying their numeric payloads, since no claim depends on the
  literal text.
-/

namespace MedicAI

/-- `Math.round` of JavaScript: round half toward positive infinity.
(`Rat.floor` is the executable floor; `jround_eq` below restates it with `⌊⌋`.) -/
def jround (q : ℚ) : ℤ := Rat.floor (q + 1/2)

/-- JS `a >= t` where `a` may be `undefined` (`undefined >= t` is `false`). -/
def jsGe (a : Option ℚ) (t : ℚ) : Bool :=
  match a with
  | none => false
  | some x => decide (t ≤ x)

/-- JS `a <= t` where `a` may be `undefined` (`undefined <= t` is `false`). -/
def jsLe (a : Option ℚ) (t : ℚ) : Bool :=
  match a with
  | none => false
  | some x => decide (x ≤ t)

/-- `Math.min` on two (non-NaN) numbers. -/
def jmin (a b : ℚ) : ℚ := if a ≤ b then a else b

/-- `Math.max` on two (non-NaN) numbers. -/
def jmax (a b : ℚ) : ℚ := if a ≤ b then b else a

def msPerDay : Int := 86400000

/- ===================== record types (ai.types.ts) ===================== -/

inductive ReminderStatus
  | pending | taken | missed | skipped | late
deriving DecidableEq, Repr

/-- `ReminderRecord` restricted to the fields the engine reads. -/
structure ReminderRecord where
  scheduledAt : Int
  status : ReminderStatus
deriving DecidableEq, Repr

inductive VitalType
  | blood_pressure | heart_rate | temperature | glucose | weight | oxygen_saturation
deriving DecidableEq, Repr

/-- `VitalRecord` restricted to the fields the engine reads. -/
structure VitalRecord where
  type : VitalType
  systolic : Option ℚ := none
  diastolic : Option ℚ := none
  numericValue : Option ℚ := none
  recordedAt : Int
deriving DecidableEq, Repr

/- ===================== configuration (ai.types.ts) ===================== -/

structure AdherenceConfig where
  goodThreshold : ℚ
  mediumThreshold : ℚ
  badWeight : ℚ
  mediumWeight : ℚ
deriving DecidableEq, Repr

structure PressureConfig where
  systolicHigh : ℚ
  systolicLow : ℚ
  diastolicHigh : ℚ
  diastolicLow : ℚ
  weight : ℚ
deriving DecidableEq, Repr

/-- shape of the glucose / heartRate / temperature sections. -/
structure HighLowConfig where
  high : ℚ
  low : ℚ
  weight : ℚ
deriving DecidableEq, Repr

structure OxygenConfig where
  low : ℚ
  weight : ℚ
deriving DecidableEq, Repr

structure VitalsConfig where
  pressure : PressureConfig
  glucose : HighLowConfig
  heartRate : HighLowConfig
  temperature : HighLowConfig
  oxygen : OxygenConfig
deriving DecidableEq, Repr

structure ExamsConfig where
  overdueDays : Int
  overdueWeight : ℚ
  pendingWeight : ℚ
deriving DecidableEq, Repr

structure RiskLevelsConfig where
  lowMax : ℚ
  moderateMax : ℚ
deriving DecidableEq, Repr

structure RiskCalculationConfig where
  adherence : AdherenceConfig
  vitals : VitalsConfig
  exams : ExamsConfig
  riskLevels : RiskLevelsConfig
deriving DecidableEq, Repr

def DEFAULT_RISK_CONFIG : RiskCalculationConfig :=
  { adherence := { goodThreshold := 90, mediumThreshold := 75, badWeight := 25, mediumWeight := 10 }
  , vitals :=
    { pressure := { systolicHigh := 140, systolicLow := 90, diastolicHigh := 90, diastolicLow := 60, weight := 15 }
    , glucose := { high := 180, low := 70, weight := 15 }
    , heartRate := { high := 100, low := 50, weight := 10 }
    , temperature := { high := 38, low := 35, weight := 10 }
    , oxygen := { low := 92, weight := 20 } }
  , exams := { overdueDays := 30, overdueWeight := 15, pendingWeight := 5 }
  , riskLevels := { lowMax := 29, moderateMax := 59 } }

/- ===================== adherence analyzer ===================== -/

inductive AdherenceStatus
  | good | medium | bad
deriving DecidableEq, Repr

structure AdherenceAnalysis where
  days : ℕ
  totalReminders : ℕ
  taken : ℕ
  late : ℕ
  missed : ℕ
  adherenceRate : ℚ
  adherenceStatus : AdherenceStatus
deriving DecidableEq, Repr

/-- The reminders of the trailing 30-day window (`scheduledAt >= thirtyDaysAgo`). -/
def recentReminders (now : Int) (reminders : List ReminderRecord) : List ReminderRecord :=
  reminders.filter (fun r => decide (now - 30 * msPerDay ≤ r.scheduledAt))

/-- `analyzeAdherence` of ai.service.ts, with "now" made explicit. -/
def analyzeAdherence (cfg : RiskCalculationConfig) (now : Int)
    (reminders : List ReminderRecord) : AdherenceAnalysis :=
  let recent := recentReminders now reminders
  let totalReminders := recent.length
  let taken := (recent.filter (fun r => decide (r.status = ReminderStatus.taken))).length
  let late := (recent.filter (fun r => decide (r.status = ReminderStatus.late))).length
  let missed := (recent.filter (fun r => decide (r.status = ReminderStatus.missed))).length
  let adherenceRate : ℚ :=
    if 0 < totalReminders then
      (jround (((taken + late : ℚ) / totalReminders) * 10000) : ℚ) / 100
    else 100
  let adherenceStatus : AdherenceStatus :=
    if cfg.adherence.goodThreshold ≤ adherenceRate then .good
    else if cfg.adherence.mediumThreshold ≤ adherenceRate then .medium
    else .bad
  { days := 30, totalReminders := totalReminders, taken := taken, late := late
  , missed := missed, adherenceRate := adherenceRate, adherenceStatus := adherenceStatus }

/- ===================== vitals analyzer ===================== -/

inductive VitalFlag
  | PRESSURE_HIGH | PRESSURE_LOW
  | GLUCOSE_HIGH | GLUCOSE_LOW
  | HEART_RATE_HIGH | HEART_RATE_LOW
  | TEMPERATURE_HIGH | TEMPERATURE_LOW
  | OXYGEN_LOW
deriving DecidableEq, Repr

inductive Severity
  | low | medium | high
deriving DecidableEq, Repr

structure FlagDetail where
  flag : VitalFlag
  value : ℚ
  threshold : ℚ
  severity : Severity
deriving DecidableEq, Repr

structure LastMeasurements where
  systolic : Option ℚ := none
  diastolic : Option ℚ := none
  bloodGlucose : Option ℚ := none
  heartRate : Option ℚ := none
  temperature : Option ℚ := none
  oxygenSaturation : Option ℚ := none
deriving DecidableEq, Repr

structure VitalsAnalysis where
  lastMeasurements : LastMeasurements
  flags : List VitalFlag
  flagDetails : List FlagDetail
deriving DecidableEq, Repr

/-- Stable insertion (descending `recordedAt`): `x` goes before the first
element whose timestamp is not strictly greater, so earlier list positions win
ties, as with JavaScript's stable `Array.sort((a, b) => b - a)`. -/
def insertDesc (x : VitalRecord) : List VitalRecord → List VitalRecord
  | [] => [x]
  | y :: ys => if x.recordedAt < y.recordedAt then y :: insertDesc x ys else x :: y :: ys

/-- Stable sort by `recordedAt`, most recent first. -/
def sortDesc : List VitalRecord → List VitalRecord
  | [] => []
  | x :: xs => insertDesc x (sortDesc xs)

/-- The measurements of the trailing 7-day window. -/
def recentVitals (now : Int) (vitals : List VitalRecord) : List VitalRecord :=
  vitals.filter (fun v => decide (now - 7 * msPerDay ≤ v.recordedAt))

/-- `groupVitalsByType`, read back at one type: the in-window records of the
given channel, most recent first. -/
def vitalsOfType (t : VitalType) (recent : List VitalRecord) : List VitalRecord :=
  sortDesc (recent.filter (fun v => decide (v.type = t)))

/- severity ladders, inline literals of ai.service.ts -/

def sevPressureHigh (s : ℚ) : Severity :=
  if 160 ≤ s then .high else if 150 ≤ s then .medium else .low

def sevPressureLow (s : ℚ) : Severity :=
  if s ≤ 80 then .high else if s ≤ 85 then .medium else .low

def sevGlucoseHigh (g : ℚ) : Severity :=
  if 250 ≤ g then .high else if 200 ≤ g then .medium else .low

def sevGlucoseLow (g : ℚ) : Severity :=
  if g ≤ 50 then .high else if g ≤ 60 then .medium else .low

def sevHeartRateHigh (v : ℚ) : Severity :=
  if 120 ≤ v then .high else if 110 ≤ v then .medium else .low

def sevHeartRateLow (v : ℚ) : Severity :=
  if v ≤ 40 then .high else if v ≤ 45 then .medium else .low

def sevTemperatureHigh (v : ℚ) : Severity :=
  if 39 ≤ v then .high else if (38.5 : ℚ) ≤ v then .medium else .low

def sevTemperatureLow (v : ℚ) : Severity :=
  if v ≤ 34 then .high else if v ≤ (34.5 : ℚ) then .medium else .low

def sevOxygenLow (v : ℚ) : Severity :=
  if v ≤ 88 then .high else if v ≤ 90 then .medium else .low

/-- The blood-pressure record meets the high threshold
(`v.systolic! >= systolicHigh || v.diastolic! >= diastolicHigh`). -/
def meetsHighBP (cfg : RiskCalculationConfig) (v : VitalRecord) : Bool :=
  jsGe v.systolic cfg.vitals.pressure.systolicHigh ||
  jsGe v.diastolic cfg.vitals.pressure.diastolicHigh

/-- The blood-pressure record meets the low threshold. -/
def meetsLowBP (cfg : RiskCalculationConfig) (v : VitalRecord) : Bool :=
  jsLe v.systolic cfg.vitals.pressure.systolicLow ||
  jsLe v.diastolic cfg.vitals.pressure.diastolicLow

/-- The pressure branch of `analyzeVitals`: `bp` is the sorted in-window
blood-pressure group; the whole branch is guarded by the most recent record
having both `systolic` and `diastolic` defined. -/
def pressureDetails (cfg : RiskCalculationConfig) (bp : List VitalRecord) : List FlagDetail :=
  match bp with
  | [] => []
  | latest :: _ =>
    match latest.systolic, latest.diastolic with
    | some sys, some _ =>
      (if 2 ≤ (bp.filter (meetsHighBP cfg)).length then
        [{ flag := .PRESSURE_HIGH, value := sys
         , threshold := cfg.vitals.pressure.systolicHigh, severity := sevPressureHigh sys }]
       else []) ++
      (if 2 ≤ (bp.filter (meetsLowBP cfg)).length then
        [{ flag := .PRESSURE_LOW, value := sys
         , threshold := cfg.vitals.pressure.systolicLow, severity := sevPressureLow sys }]
       else [])
    | _, _ => []

/-- The glucose branch: high needs 2 qualifying readings, low needs 1;
guarded by the most recent record having `numericValue` defined. -/
def glucoseDetails (cfg : RiskCalculationConfig) (gl : List VitalRecord) : List FlagDetail :=
  match gl with
  | [] => []
  | latest :: _ =>
    match latest.numericValue with
    | some g =>
      (if 2 ≤ (gl.filter (fun v => jsGe v.numericValue cfg.vitals.glucose.high)).length then
        [{ flag := .GLUCOSE_HIGH, value := g
         , threshold := cfg.vitals.glucose.high, severity := sevGlucoseHigh g }]
       else []) ++
      (if 1 ≤ (gl.filter (fun v => jsLe v.numericValue cfg.vitals.glucose.low)).length then
        [{ flag := .GLUCOSE_LOW, value := g
         , threshold := cfg.vitals.glucose.low, severity := sevGlucoseLow g }]
       else [])
    | none => []

/-- The heart-rate branch: only the most recent in-window reading is tested. -/
def heartRateDetails (cfg : RiskCalculationConfig) (hr : List VitalRecord) : List FlagDetail :=
  match hr with
  | [] => []
  | latest :: _ =>
    match latest.numericValue with
    | some v =>
      (if cfg.vitals.heartRate.high ≤ v then
        [{ flag := .HEART_RATE_HIGH, value := v
         , threshold := cfg.vitals.heartRate.high, severity := sevHeartRateHigh v }]
       else []) ++
      (if v ≤ cfg.vitals.heartRate.low then
        [{ flag := .HEART_RATE_LOW, value := v
         , threshold := cfg.vitals.heartRate.low, severity := sevHeartRateLow v }]
       else [])
    | none => []

/-- The temperature branch: only the most recent in-window reading is tested. -/
def temperatureDetails (cfg : RiskCalculationConfig) (tp : List VitalRecord) : List FlagDetail :=
  match tp with
  | [] => []
  | latest :: _ =>
    match latest.numericValue with
    | some v =>
      (if cfg.vitals.temperature.high ≤ v then
        [{ flag := .TEMPERATURE_HIGH, value := v
         , threshold := cfg.vitals.temperature.high, severity := sevTemperatureHigh v }]
       else []) ++
      (if v ≤ cfg.vitals.temperature.low then
        [{ flag := .TEMPERATURE_LOW, value := v
         , threshold := cfg.vitals.temperature.low, severity := sevTemperatureLow v }]
       else [])
    | none => []

/-- The oxygen-saturation branch: only the most recent in-window reading. -/
def oxygenDetails (cfg : RiskCalculationConfig) (ox : List VitalRecord) : List FlagDetail :=
  match ox with
  | [] => []
  | latest :: _ =>
    match latest.numericValue with
    | some v =>
      if v ≤ cfg.vitals.oxygen.low then
        [{ flag := .OXYGEN_LOW, value := v
         , threshold := cfg.vitals.oxygen.low, severity := sevOxygenLow v }]
      else []
    | none => []

/-- `lastMeasurements` (set from the most recent record of each channel when
the guarding fields are defined). -/
def lastMeasurementsOf (recent : List VitalRecord) : LastMeasurements :=
  let bpPair : Option ℚ × Option ℚ :=
    match vitalsOfType .blood_pressure recent with
    | latest :: _ =>
      match latest.systolic, latest.diastolic with
      | some s, some d => (some s, some d)
      | _, _ => (none, none)
    | [] => (none, none)
  let numOf : VitalType → Option ℚ := fun t =>
    match vitalsOfType t recent with
    | latest :: _ => latest.numericValue
    | [] => none
  { systolic := bpPair.1, diastolic := bpPair.2
  , bloodGlucose := numOf .glucose, heartRate := numOf .heart_rate
  , temperature := numOf .temperature, oxygenSaturation := numOf .oxygen_saturation }

/-- `analyzeVitals` of ai.service.ts, with "now" made explicit.  Every push
site of the source pushes the flag and its detail together, so `flags` is the
image of `flagDetails` under `FlagDetail.flag`. -/
def analyzeVitals (cfg : RiskCalculationConfig) (now : Int)
    (vitals : List VitalRecord) : VitalsAnalysis :=
  let recent := recentVitals now vitals
  let details :=
    pressureDetails cfg (vitalsOfType .blood_pressure recent) ++
    glucoseDetails cfg (vitalsOfType .glucose recent) ++
    heartRateDetails cfg (vitalsOfType .heart_rate recent) ++
    temperatureDetails cfg (vitalsOfType .temperature recent) ++
    oxygenDetails cfg (vitalsOfType .oxygen_saturation recent)
  { lastMeasurements := lastMeasurementsOf recent
  , flags := details.map FlagDetail.flag
  , flagDetails := details }

/- ===================== risk score calculator ===================== -/

/-- `ExamsAnalysis` restricted to the fields the risk calculator and the
recommendation generator read (the recent-exam digest feeds neither). -/
structure ExamsAnalysis where
  pendingExams : ℕ
  overdueExams : ℕ
  completedExams : ℕ
deriving DecidableEq, Repr

inductive RiskLevel
  | low | moderate | high
deriving DecidableEq, Repr

/-- The reason strings of `calculateRiskScore`, as tagged values carrying the
interpolated numeric payloads. -/
inductive Reason
  | lowAdherence (rate : ℚ)
  | mediumAdherence (rate : ℚ)
  | pressureHigh (v : ℚ)
  | pressureLow (v : ℚ)
  | glucoseHigh (v : ℚ)
  | glucoseLow (v : ℚ)
  | heartRateHigh (v : ℚ)
  | heartRateLow (v : ℚ)
  | temperatureHigh (v : ℚ)
  | temperatureLow (v : ℚ)
  | oxygenLow (v : ℚ)
  | overdueExams (n : ℕ) (days : Int)
  | pendingExams (n : ℕ)
deriving DecidableEq, Repr

structure RiskScore where
  value : ℚ
  level : RiskLevel
  reasons : List Reason
deriving DecidableEq, Repr

/-- The adherence contribution of `calculateRiskScore` (score delta and
pushed reason). -/
def adherencePart (cfg : RiskCalculationConfig) (adh : AdherenceAnalysis) : ℚ × List Reason :=
  match adh.adherenceStatus with
  | .bad => (cfg.adherence.badWeight, [Reason.lowAdherence adh.adherenceRate])
  | .medium => (cfg.adherence.mediumWeight, [Reason.mediumAdherence adh.adherenceRate])
  | .good => (0, [])

/-- One iteration of the `switch` over `vitals.flagDetails`: the score delta
and the pushed reason.  `PRESSURE_HIGH`, `GLUCOSE_HIGH` and `OXYGEN_LOW`
multiply the channel weight by 1.5 when the detail's severity is high;
`GLUCOSE_LOW` multiplies by 1.5 unconditionally; `PRESSURE_LOW` and the
heart-rate / temperature flags add the bare channel weight. -/
def flagContribution (cfg : RiskCalculationConfig) (d : FlagDetail) : ℚ × Reason :=
  match d.flag with
  | .PRESSURE_HIGH =>
    (cfg.vitals.pressure.weight * (if d.severity = .high then 3/2 else 1), .pressureHigh d.value)
  | .PRESSURE_LOW => (cfg.vitals.pressure.weight, .pressureLow d.value)
  | .GLUCOSE_HIGH =>
    (cfg.vitals.glucose.weight * (if d.severity = .high then 3/2 else 1), .glucoseHigh d.value)
  | .GLUCOSE_LOW => (cfg.vitals.glucose.weight * (3/2), .glucoseLow d.value)
  | .HEART_RATE_HIGH => (cfg.vitals.heartRate.weight, .heartRateHigh d.value)
  | .HEART_RATE_LOW => (cfg.vitals.heartRate.weight, .heartRateLow d.value)
  | .TEMPERATURE_HIGH => (cfg.vitals.temperature.weight, .temperatureHigh d.value)
  | .TEMPERATURE_LOW => (cfg.vitals.temperature.weight, .temperatureLow d.value)
  | .OXYGEN_LOW =>
    (cfg.vitals.oxygen.weight * (if d.severity = .high then 3/2 else 1), .oxygenLow d.value)

/-- The unclamped score and the reasons list, accumulated in source order:
adherence, then the loop over `flagDetails`, then overdue exams, then
pending exams. -/
def rawRisk (cfg : RiskCalculationConfig) (adh : AdherenceAnalysis)
    (vit : VitalsAnalysis) (ex : ExamsAnalysis) : ℚ × List Reason :=
  let base := adherencePart cfg adh
  let afterVitals := vit.flagDetails.foldl
    (fun acc d => (acc.1 + (flagContribution cfg d).1, acc.2 ++ [(flagContribution cfg d).2]))
    base
  let afterOverdue :=
    if 0 < ex.overdueExams then
      (afterVitals.1 + cfg.exams.overdueWeight * ex.overdueExams,
       afterVitals.2 ++ [Reason.overdueExams ex.overdueExams cfg.exams.overdueDays])
    else afterVitals
  if 3 < ex.pendingExams then
    (afterOverdue.1 + cfg.exams.pendingWeight,
     afterOverdue.2 ++ [Reason.pendingExams ex.pendingExams])
  else afterOverdue

/-- `calculateRiskScore` of ai.service.ts: clamp to [0,100], classify the
clamped score against the configured boundaries, round the value to two
decimal places. -/
def calculateRiskScore (cfg : RiskCalculationConfig) (adh : AdherenceAnalysis)
    (vit : VitalsAnalysis) (ex : ExamsAnalysis) : RiskScore :=
  let raw := rawRisk cfg adh vit ex
  let score := jmin 100 (jmax 0 raw.1)
  { value := (jround (score * 100) : ℚ) / 100
  , level :=
      if score ≤ cfg.riskLevels.lowMax then .low
      else if score ≤ cfg.riskLevels.moderateMax then .moderate
      else .high
  , reasons := raw.2 }

/- ===================== recommendation generator ===================== -/

/-- The advisory strings of `generateRecommendations`, as tagged values. -/
inductive Recommendation
  | adherenceBadStrategies
  | adherenceBadReminders
  | adherenceMedium
  | pressureHighUrgent
  | pressureHighAdjust
  | pressureLowInvestigate
  | glucoseHighReview
  | glucoseHighMonitor
  | glucoseLowUrgent
  | glucoseLowAdjust
  | oxygenLowEvaluate
  | overdueExamsReschedule (n : ℕ)
  | pendingExamsOrganize
  | riskHighUrgentVisit
  | riskHighIntensify
  | riskModerateFollowUp
  | stable
deriving DecidableEq, Repr

/-- The recommendations pushed by the rule list of `generateRecommendations`,
before the empty-list fallback. -/
def preRecommendations (adh : AdherenceAnalysis) (vit : VitalsAnalysis)
    (ex : ExamsAnalysis) (risk : RiskScore) : List Recommendation :=
  (match adh.adherenceStatus with
   | .bad => [Recommendation.adherenceBadStrategies, Recommendation.adherenceBadReminders]
   | .medium => [Recommendation.adherenceMedium]
   | .good => []) ++
  (if VitalFlag.PRESSURE_HIGH ∈ vit.flags then
    match vit.flagDetails.find? (fun d => decide (d.flag = .PRESSURE_HIGH)) with
    | some d =>
      if d.severity = .high then [Recommendation.pressureHighUrgent]
      else [Recommendation.pressureHighAdjust]
    | none => [Recommendation.pressureHighAdjust]
   else []) ++
  (if VitalFlag.PRESSURE_LOW ∈ vit.flags then [Recommendation.pressureLowInvestigate] else []) ++
  (if VitalFlag.GLUCOSE_HIGH ∈ vit.flags then
    [Recommendation.glucoseHighReview, Recommendation.glucoseHighMonitor] else []) ++
  (if VitalFlag.GLUCOSE_LOW ∈ vit.flags then
    match vit.flagDetails.find? (fun d => decide (d.flag = .GLUCOSE_LOW)) with
    | some d =>
      if d.severity = .high then [Recommendation.glucoseLowUrgent]
      else [Recommendation.glucoseLowAdjust]
    | none => [Recommendation.glucoseLowAdjust]
   else []) ++
  (if VitalFlag.OXYGEN_LOW ∈ vit.flags then [Recommendation.oxygenLowEvaluate] else []) ++
  (if 0 < ex.overdueExams then [Recommendation.overdueExamsReschedule ex.overdueExams] else []) ++
  (if 3 < ex.pendingExams then [Recommendation.pendingExamsOrganize] else []) ++
  (match risk.level with
   | .high => [Recommendation.riskHighUrgentVisit, Recommendation.riskHighIntensify]
   | .moderate => [Recommendation.riskModerateFollowUp]
   | .low => [])

/-- `generateRecommendations` of ai.service.ts: the rule list, then the
default stable / routine-follow-up message when no rule fired. -/
def generateRecommendations (adh : AdherenceAnalysis) (vit : VitalsAnalysis)
    (ex : ExamsAnalysis) (risk : RiskScore) : List Recommendation :=
  let recs := preRecommendations adh vit ex risk
  if recs = [] then [Recommendation.stable] else recs

/- ===================== engine construction ===================== -/

/-!
The constructor is `this.config = { ...DEFAULT_RISK_CONFIG, ...config }` on a
caller-supplied `Partial<RiskCalculationConfig>`.  The spread is shallow: a
top-level section present on the override replaces the whole default section,
and at runtime the supplied section object may itself lack leaves (TypeScript's
`Partial` only makes the top-level keys optional, but the runtime performs no
check).  We model the runtime objects: every leaf is an `Option`, `none`
standing for an absent / `undefined` property.
-/

structure AdherenceConfigObj where
  goodThreshold : Option ℚ := none
  mediumThreshold : Option ℚ := none
  badWeight : Option ℚ := none
  mediumWeight : Option ℚ := none
deriving DecidableEq, Repr

structure PressureConfigObj where
  systolicHigh : Option ℚ := none
  systolicLow : Option ℚ := none
  diastolicHigh : Option ℚ := none
  diastolicLow : Option ℚ := none
  weight : Option ℚ := none
deriving DecidableEq, Repr

structure HighLowConfigObj where
  high : Option ℚ := none
  low : Option ℚ := none
  weight : Option ℚ := none
deriving DecidableEq, Repr

structure OxygenConfigObj where
  low : Option ℚ := none
  weight : Option ℚ := none
deriving DecidableEq, Repr

structure VitalsConfigObj where
  pressure : Option PressureConfigObj := none
  glucose : Option HighLowConfigObj := none
  heartRate : Option HighLowConfigObj := none
  temperature : Option HighLowConfigObj := none
  oxygen : Option OxygenConfigObj := none
deriving DecidableEq, Repr

structure ExamsConfigObj where
  overdueDays : Option Int := none
  overdueWeight : Option ℚ := none
  pendingWeight : Option ℚ := none
deriving DecidableEq, Repr

structure RiskLevelsConfigObj where
  lowMax : Option ℚ := none
  moderateMax : Option ℚ := none
deriving DecidableEq, Repr

/-- A runtime configuration object: the engine's `this.config`. -/
structure RiskConfigObj where
  adherence : AdherenceConfigObj
  vitals : VitalsConfigObj
  exams : ExamsConfigObj
  riskLevels : RiskLevelsConfigObj
deriving DecidableEq, Repr

/-- A runtime `Partial<RiskCalculationConfig>` argument: top-level sections
may be absent. -/
structure PartialRiskConfig where
  adherence : Option AdherenceConfigObj := none
  vitals : Option VitalsConfigObj := none
  exams : Option ExamsConfigObj := none
  riskLevels : Option RiskLevelsConfigObj := none
deriving DecidableEq, Repr

/-- The runtime object of `DEFAULT_RISK_CONFIG` (every leaf present). -/
def defaultRiskConfigObj : RiskConfigObj :=
  { adherence :=
      { goodThreshold := some 90, mediumThreshold := some 75
      , badWeight := some 25, mediumWeight := some 10 }
  , vitals :=
      { pressure := some
          { systolicHigh := some 140, systolicLow := some 90
          , diastolicHigh := some 90, diastolicLow := some 60, weight := some 15 }
      , glucose := some { high := some 180, low := some 70, weight := some 15 }
      , heartRate := some { high := some 100, low := some 50, weight := some 10 }
      , temperature := some { high := some 38, low := some 35, weight := some 10 }
      , oxygen := some { low := some 92, weight := some 20 } }
  , exams := { overdueDays := some 30, overdueWeight := some 15, pendingWeight := some 5 }
  , riskLevels := { lowMax := some 29, moderateMax := some 59 } }

/-- The body of the `AIService` constructor:
`{ ...DEFAULT_RISK_CONFIG, ...config }` — a shallow merge over the four
top-level sections.  An omitted argument (`config?`) behaves as the empty
override. -/
def mergeConfig (config : Option PartialRiskConfig) : RiskConfigObj :=
  match config with
  | none => defaultRiskConfigObj
  | some p =>
    { adherence := p.adherence.getD defaultRiskConfigObj.adherence
    , vitals := p.vitals.getD defaultRiskConfigObj.vitals
    , exams := p.exams.getD defaultRiskConfigObj.exams
    , riskLevels := p.riskLevels.getD defaultRiskConfigObj.riskLevels }

/-- The `AIService` constructor.  The source body is the shallow merge and
nothing else — it contains no validation and no throw site — so construction
always succeeds; the `Except` codomain records that no error path exists. -/
def AIServiceNew (config : Option PartialRiskConfig) : Except String RiskConfigObj :=
  Except.ok (mergeConfig config)

/- ===================== helper lemmas ===================== -/

theorem ratFloor_eq (q : ℚ) : Rat.floor q = ⌊q⌋ := by
  rw [Rat.floor_def', Rat.floor_def]

theorem jround_eq (q : ℚ) : jround q = ⌊q + 1/2⌋ := by
  rw [jround, ratFloor_eq]

/-- `Math.round` fixes integers. -/
theorem jround_int (m : ℤ) : jround (m : ℚ) = m := by
  rw [jround_eq, Int.floor_int_add]
  norm_num

theorem insertDesc_perm (x : VitalRecord) (l : List VitalRecord) :
    (insertDesc x l).Perm (x :: l) := by
  induction l with
  | nil => simp [insertDesc]
  | cons y ys ih =>
    rw [insertDesc]
    split
    · exact ((ih.cons y).trans (List.Perm.swap x y ys))
    · exact List.Perm.refl _

theorem sortDesc_perm (l : List VitalRecord) : (sortDesc l).Perm l := by
  induction l with
  | nil => exact List.Perm.refl _
  | cons x xs ih => exact (insertDesc_perm x (sortDesc xs)).trans (ih.cons x)

theorem length_filter_sortDesc (p : VitalRecord → Bool) (l : List VitalRecord) :
    ((sortDesc l).filter p).length = (l.filter p).length :=
  ((sortDesc_perm l).filter p).length_eq

theorem mem_pressureDetails_flag {cfg : RiskCalculationConfig} {bp : List VitalRecord}
    {d : FlagDetail} (h : d ∈ pressureDetails cfg bp) :
    d.flag = VitalFlag.PRESSURE_HIGH ∨ d.flag = VitalFlag.PRESSURE_LOW := by
  match bp with
  | [] => simp [pressureDetails] at h
  | latest :: rest =>
    rw [pressureDetails] at h
    rcases hs : latest.systolic with _ | s <;> rcases hd : latest.diastolic with _ | dia <;>
      simp [hs, hd] at h
    rcases h with ⟨_, rfl⟩ | ⟨_, rfl⟩ <;> simp

theorem mem_glucoseDetails_flag {cfg : RiskCalculationConfig} {gl : List VitalRecord}
    {d : FlagDetail} (h : d ∈ glucoseDetails cfg gl) :
    d.flag = VitalFlag.GLUCOSE_HIGH ∨ d.flag = VitalFlag.GLUCOSE_LOW := by
  match gl with
  | [] => simp [glucoseDetails] at h
  | latest :: rest =>
    rw [glucoseDetails] at h
    rcases hg : latest.numericValue with _ | g <;>
      simp [hg] at h
    rcases h with ⟨_, rfl⟩ | ⟨_, rfl⟩ <;> simp

theorem mem_heartRateDetails_flag {cfg : RiskCalculationConfig} {hr : List VitalRecord}
    {d : FlagDetail} (h : d ∈ heartRateDetails cfg hr) :
    d.flag = VitalFlag.HEART_RATE_HIGH ∨ d.flag = VitalFlag.HEART_RATE_LOW := by
  match hr with
  | [] => simp [heartRateDetails] at h
  | latest :: rest =>
    rw [heartRateDetails] at h
    rcases hg : latest.numericValue with _ | g <;>
      simp [hg] at h
    rcases h with ⟨_, rfl⟩ | ⟨_, rfl⟩ <;> simp

theorem mem_temperatureDetails_flag {cfg : RiskCalculationConfig} {tp : List VitalRecord}
    {d : FlagDetail} (h : d ∈ temperatureDetails cfg tp) :
    d.flag = VitalFlag.TEMPERATURE_HIGH ∨ d.flag = VitalFlag.TEMPERATURE_LOW := by
  match tp with
  | [] => simp [temperatureDetails] at h
  | latest :: rest =>
    rw [temperatureDetails] at h
    rcases hg : latest.numericValue with _ | g <;>
      simp [hg] at h
    rcases h with ⟨_, rfl⟩ | ⟨_, rfl⟩ <;> simp

theorem mem_oxygenDetails_flag {cfg : RiskCalculationConfig} {ox : List VitalRecord}
    {d : FlagDetail} (h : d ∈ oxygenDetails cfg ox) :
    d.flag = VitalFlag.OXYGEN_LOW := by
  match ox with
  | [] => simp [oxygenDetails] at h
  | latest :: rest =>
    rw [oxygenDetails] at h
    rcases hg : latest.numericValue with _ | g <;>
      simp [hg] at h
    rcases h with ⟨_, rfl⟩
    simp

/- ===================== C5: construction never validates ===================== -/

/-- An override whose adherence section has `goodThreshold < mediumThreshold`
(the spec's own example of an invalid configuration). -/
def invalidOverride : PartialRiskConfig :=
  { adherence := some
      { goodThreshold := some 50, mediumThreshold := some 75
      , badWeight := some 25, mediumWeight := some 10 } }

/-- Counterexample to C5: constructing the engine from a configuration with
`goodThreshold = 50 < 75 = mediumThreshold` succeeds and returns an engine
instance carrying exactly those values — no error is raised. -/
theorem C5_counterexample :
    (50 : ℚ) < 75 ∧
    AIServiceNew (some invalidOverride) = Except.ok (mergeConfig (some invalidOverride)) ∧
    (mergeConfig (some invalidOverride)).adherence.goodThreshold = some 50 ∧
    (mergeConfig (some invalidOverride)).adherence.mediumThreshold = some 75 := by
  refine ⟨by norm_num, rfl, rfl, rfl⟩

/-- C5 (amended): the `AIService` constructor performs no validation at all —
for every configuration argument, valid or not, it succeeds, and the engine it
returns carries the shallow merge of the override over the defaults. -/
theorem C5_no_validation (p : Option PartialRiskConfig) :
    (AIServiceNew p).isOk = true ∧
    ∀ c, AIServiceNew p = Except.ok c → c = mergeConfig p := by
  refine ⟨rfl, fun c hc => ?_⟩
  cases hc
  rfl

/-- Witness for C5's amended theorem at the invalid override. -/
theorem C5_no_validation_witness :
    (AIServiceNew (some invalidOverride)).isOk = true ∧
    ∀ c, AIServiceNew (some invalidOverride) = Except.ok c → c = mergeConfig (some invalidOverride) :=
  C5_no_validation (some invalidOverride)

/- ===================== C6: override is shallow, per section ===================== -/

/-- A runtime override supplying only the single leaf `adherence.goodThreshold`. -/
def leafOverride : PartialRiskConfig :=
  { adherence := some { goodThreshold := some 85 } }

/-- Counterexample to C6: overriding only `adherence.goodThreshold` does not
keep the sibling default `adherence.badWeight = 25`; the shallow spread
replaces the whole adherence section, leaving `badWeight` undefined. -/
theorem C6_counterexample :
    (mergeConfig (some leafOverride)).adherence.goodThreshold = some 85 ∧
    (mergeConfig (some leafOverride)).adherence.badWeight = none ∧
    defaultRiskConfigObj.adherence.badWeight = some 25 := by
  refine ⟨rfl, rfl, rfl⟩

/-- C6 (amended): the configuration is overridable as a whole or per TOP-LEVEL
SECTION: an override supplying one section replaces exactly that section and
every other section keeps its default; omitting the override keeps all
defaults.  (Per-leaf override does not hold: see `C6_counterexample`.) -/
theorem C6_section_override (a : AdherenceConfigObj) (v : VitalsConfigObj)
    (e : ExamsConfigObj) (r : RiskLevelsConfigObj) :
    mergeConfig (some { adherence := some a }) = { defaultRiskConfigObj with adherence := a } ∧
    mergeConfig (some { vitals := some v }) = { defaultRiskConfigObj with vitals := v } ∧
    mergeConfig (some { exams := some e }) = { defaultRiskConfigObj with exams := e } ∧
    mergeConfig (some { riskLevels := some r }) = { defaultRiskConfigObj with riskLevels := r } ∧
    mergeConfig none = defaultRiskConfigObj := by
  refine ⟨rfl, rfl, rfl, rfl, rfl⟩

/-- Witness for C6's amended theorem at concrete section objects. -/
theorem C6_section_override_witness :
    mergeConfig (some { adherence := some { goodThreshold := some 85 } }) =
      { defaultRiskConfigObj with adherence := { goodThreshold := some 85 } } ∧
    mergeConfig (some { vitals := some {} }) = { defaultRiskConfigObj with vitals := {} } ∧
    mergeConfig (some { exams := some {} }) = { defaultRiskConfigObj with exams := {} } ∧
    mergeConfig (some { riskLevels := some {} }) = { defaultRiskConfigObj with riskLevels := {} } ∧
    mergeConfig none = defaultRiskConfigObj :=
  C6_section_override { goodThreshold := some 85 } {} {} {}

/- ===================== C7: adherence totality and inclusive thresholds ===================== -/

/-- C7: `analyzeAdherence` never fails; with no in-window reminder events it
returns rate 100 and status good, and at the default configuration the status
thresholds are inclusive: a computed rate of exactly 90 classifies as good and
exactly 75 as medium. -/
theorem C7_adherence_defaults :
    (∀ (now : Int) (rs : List ReminderRecord), recentReminders now rs = [] →
      analyzeAdherence DEFAULT_RISK_CONFIG now rs =
        { days := 30, totalReminders := 0, taken := 0, late := 0, missed := 0
        , adherenceRate := 100, adherenceStatus := .good }) ∧
    (∀ (now : Int) (rs : List ReminderRecord),
      (analyzeAdherence DEFAULT_RISK_CONFIG now rs).adherenceRate = 90 →
      (analyzeAdherence DEFAULT_RISK_CONFIG now rs).adherenceStatus = .good) ∧
    (∀ (now : Int) (rs : List ReminderRecord),
      (analyzeAdherence DEFAULT_RISK_CONFIG now rs).adherenceRate = 75 →
      (analyzeAdherence DEFAULT_RISK_CONFIG now rs).adherenceStatus = .medium) := by
  refine ⟨fun now rs h => ?_, fun now rs h => ?_, fun now rs h => ?_⟩
  · simp only [analyzeAdherence, h]
    norm_num [DEFAULT_RISK_CONFIG]
  · simp only [analyzeAdherence] at h ⊢
    simp only [h]
    norm_num [DEFAULT_RISK_CONFIG]
  · simp only [analyzeAdherence] at h ⊢
    simp only [h]
    norm_num [DEFAULT_RISK_CONFIG]

def wNow : Int := 100 * msPerDay

def wTaken : ReminderRecord := { scheduledAt := wNow, status := .taken }

def wMissed : ReminderRecord := { scheduledAt := wNow, status := .missed }

/-- The 10-event history with 9 taken and 1 missed (rate exactly 90). -/
def wList90 : List ReminderRecord := List.replicate 9 wTaken ++ [wMissed]

/-- The 4-event history with 3 taken and 1 missed (rate exactly 75). -/
def wList75 : List ReminderRecord := List.replicate 3 wTaken ++ [wMissed]

/-- Witness for C7: the empty history yields rate 100 / status good, a rate of
exactly 90 yields good, and a rate of exactly 75 yields medium, at concrete
inputs. -/
theorem C7_adherence_defaults_witness :
    analyzeAdherence DEFAULT_RISK_CONFIG wNow [] =
      { days := 30, totalReminders := 0, taken := 0, late := 0, missed := 0
      , adherenceRate := 100, adherenceStatus := .good } ∧
    (analyzeAdherence DEFAULT_RISK_CONFIG wNow wList90).adherenceRate = 90 ∧
    (analyzeAdherence DEFAULT_RISK_CONFIG wNow wList90).adherenceStatus = .good ∧
    (analyzeAdherence DEFAULT_RISK_CONFIG wNow wList75).adherenceRate = 75 ∧
    (analyzeAdherence DEFAULT_RISK_CONFIG wNow wList75).adherenceStatus = .medium := by
  have h90 : (analyzeAdherence DEFAULT_RISK_CONFIG wNow wList90).adherenceRate = 90 := by
    have ht : ((recentReminders wNow wList90).filter
        (fun r => decide (r.status = ReminderStatus.taken))).length = 9 := by decide
    have hl : ((recentReminders wNow wList90).filter
        (fun r => decide (r.status = ReminderStatus.late))).length = 0 := by decide
    have htot : (recentReminders wNow wList90).length = 10 := by decide
    simp only [analyzeAdherence, ht, hl, htot]
    norm_num [jround_eq]
  have h75 : (analyzeAdherence DEFAULT_RISK_CONFIG wNow wList75).adherenceRate = 75 := by
    have ht : ((recentReminders wNow wList75).filter
        (fun r => decide (r.status = ReminderStatus.taken))).length = 3 := by decide
    have hl : ((recentReminders wNow wList75).filter
        (fun r => decide (r.status = ReminderStatus.late))).length = 0 := by decide
    have htot : (recentReminders wNow wList75).length = 4 := by decide
    simp only [analyzeAdherence, ht, hl, htot]
    norm_num [jround_eq]
  exact ⟨C7_adherence_defaults.1 wNow [] rfl,
    h90, C7_adherence_defaults.2.1 wNow wList90 h90,
    h75, C7_adherence_defaults.2.2 wNow wList75 h75⟩

/- ===================== C9: default recommendation fallback ===================== -/

theorem stable_not_mem_pre (adh : AdherenceAnalysis) (vit : VitalsAnalysis)
    (ex : ExamsAnalysis) (risk : RiskScore) :
    Recommendation.stable ∉ preRecommendations adh vit ex risk := by
  intro hmem
  simp only [preRecommendations, List.mem_append] at hmem
  rcases hmem with ((((((((h | h) | h) | h) | h) | h) | h) | h) | h)
  · cases hst : adh.adherenceStatus <;> rw [hst] at h <;> simp at h
  · by_cases hc : VitalFlag.PRESSURE_HIGH ∈ vit.flags
    · rw [if_pos hc] at h
      rcases hf : List.find? (fun d => decide (d.flag = VitalFlag.PRESSURE_HIGH)) vit.flagDetails
        with _ | d <;> rw [hf] at h
      · simp at h
      · by_cases hs : d.severity = Severity.high <;> simp [hs] at h
    · rw [if_neg hc] at h
      simp at h
  · split at h <;> simp at h
  · split at h <;> simp at h
  · by_cases hc : VitalFlag.GLUCOSE_LOW ∈ vit.flags
    · rw [if_pos hc] at h
      rcases hf : List.find? (fun d => decide (d.flag = VitalFlag.GLUCOSE_LOW)) vit.flagDetails
        with _ | d <;> rw [hf] at h
      · simp at h
      · by_cases hs : d.severity = Severity.high <;> simp [hs] at h
    · rw [if_neg hc] at h
      simp at h
  · split at h <;> simp at h
  · split at h <;> simp at h
  · split at h <;> simp at h
  · cases hlv : risk.level <;> rw [hlv] at h <;> simp at h

/-- C9: `generateRecommendations` never returns an empty list, and the default
stable / routine-follow-up message is in the output exactly when no other rule
fired, in which case it is the sole element. -/
theorem C9_default_recommendation (adh : AdherenceAnalysis) (vit : VitalsAnalysis)
    (ex : ExamsAnalysis) (risk : RiskScore) :
    generateRecommendations adh vit ex risk ≠ [] ∧
    (Recommendation.stable ∈ generateRecommendations adh vit ex risk ↔
      preRecommendations adh vit ex risk = []) ∧
    (preRecommendations adh vit ex risk = [] →
      generateRecommendations adh vit ex risk = [Recommendation.stable]) := by
  by_cases hp : preRecommendations adh vit ex risk = []
  · refine ⟨?_, ?_, fun _ => ?_⟩ <;> simp [generateRecommendations, hp]
  · refine ⟨?_, ?_, fun h => absurd h hp⟩
    · simp [generateRecommendations, hp]
    · rw [generateRecommendations]
      simp only [hp, if_false, iff_false]
      exact fun hmem => absurd hmem (stable_not_mem_pre adh vit ex risk)

/-- Witness for C9 at a concrete healthy input (no rule fires) where the
output is exactly the default message. -/
theorem C9_default_recommendation_witness :
    (generateRecommendations
      { days := 30, totalReminders := 0, taken := 0, late := 0, missed := 0
      , adherenceRate := 100, adherenceStatus := .good }
      { lastMeasurements := {}, flags := [], flagDetails := [] }
      { pendingExams := 0, overdueExams := 0, completedExams := 0 }
      { value := 0, level := .low, reasons := [] } ≠ []) ∧
    generateRecommendations
      { days := 30, totalReminders := 0, taken := 0, late := 0, missed := 0
      , adherenceRate := 100, adherenceStatus := .good }
      { lastMeasurements := {}, flags := [], flagDetails := [] }
      { pendingExams := 0, overdueExams := 0, completedExams := 0 }
      { value := 0, level := .low, reasons := [] } = [Recommendation.stable] := by
  refine ⟨(C9_default_recommendation _ _ _ _).1, (C9_default_recommendation _ _ _ _).2.2 (by decide)⟩

/- ===================== flag localization ===================== -/

/-- The channel a flag is computed from. -/
def channelOf (f : VitalFlag) : VitalType :=
  match f with
  | .PRESSURE_HIGH | .PRESSURE_LOW => .blood_pressure
  | .GLUCOSE_HIGH | .GLUCOSE_LOW => .glucose
  | .HEART_RATE_HIGH | .HEART_RATE_LOW => .heart_rate
  | .TEMPERATURE_HIGH | .TEMPERATURE_LOW => .temperature
  | .OXYGEN_LOW => .oxygen_saturation

/-- The branch of `analyzeVitals` that can emit the given flag. -/
def channelChunk (cfg : RiskCalculationConfig) (f : VitalFlag)
    (recent : List VitalRecord) : List FlagDetail :=
  match f with
  | .PRESSURE_HIGH | .PRESSURE_LOW => pressureDetails cfg (vitalsOfType .blood_pressure recent)
  | .GLUCOSE_HIGH | .GLUCOSE_LOW => glucoseDetails cfg (vitalsOfType .glucose recent)
  | .HEART_RATE_HIGH | .HEART_RATE_LOW => heartRateDetails cfg (vitalsOfType .heart_rate recent)
  | .TEMPERATURE_HIGH | .TEMPERATURE_LOW => temperatureDetails cfg (vitalsOfType .temperature recent)
  | .OXYGEN_LOW => oxygenDetails cfg (vitalsOfType .oxygen_saturation recent)

/-- A flag is in the output of `analyzeVitals` exactly when its own channel's
branch emits it: no branch can emit another channel's flag. -/
theorem mem_flags_localized (cfg : RiskCalculationConfig) (now : Int)
    (vs : List VitalRecord) (f : VitalFlag) :
    f ∈ (analyzeVitals cfg now vs).flags ↔
    f ∈ (channelChunk cfg f (recentVitals now vs)).map FlagDetail.flag := by
  constructor
  · intro h
    simp only [analyzeVitals, List.map_append, List.mem_append] at h
    rcases h with (((h | h) | h) | h) | h
    · rcases List.mem_map.1 h with ⟨d, hd, rfl⟩
      rcases mem_pressureDetails_flag hd with hf | hf <;>
        (rw [hf]; exact List.mem_map.2 ⟨d, hd, hf⟩)
    · rcases List.mem_map.1 h with ⟨d, hd, rfl⟩
      rcases mem_glucoseDetails_flag hd with hf | hf <;>
        (rw [hf]; exact List.mem_map.2 ⟨d, hd, hf⟩)
    · rcases List.mem_map.1 h with ⟨d, hd, rfl⟩
      rcases mem_heartRateDetails_flag hd with hf | hf <;>
        (rw [hf]; exact List.mem_map.2 ⟨d, hd, hf⟩)
    · rcases List.mem_map.1 h with ⟨d, hd, rfl⟩
      rcases mem_temperatureDetails_flag hd with hf | hf <;>
        (rw [hf]; exact List.mem_map.2 ⟨d, hd, hf⟩)
    · rcases List.mem_map.1 h with ⟨d, hd, rfl⟩
      rw [mem_oxygenDetails_flag hd]
      exact List.mem_map.2 ⟨d, hd, mem_oxygenDetails_flag hd⟩
  · intro h
    cases f <;>
      (simp only [channelChunk] at h
       simp only [analyzeVitals, List.map_append, List.mem_append]
       tauto)

/-- The numeric value of the most recent record of a list (none when the list
is empty or the field is undefined). -/
def headNum (l : List VitalRecord) : Option ℚ :=
  match l with
  | latest :: _ => latest.numericValue
  | [] => none

/-- The most recent in-window reading of a channel, read through
`numericValue`. -/
def latestNum (t : VitalType) (now : Int) (vs : List VitalRecord) : Option ℚ :=
  headNum (vitalsOfType t (recentVitals now vs))

/-- The most recent in-window blood-pressure record has both of its fields
defined. -/
def headWellFormedBP (l : List VitalRecord) : Bool :=
  match l with
  | latest :: _ => latest.systolic.isSome && latest.diastolic.isSome
  | [] => false

/-- A blood-pressure record carrying both fields. -/
def wellFormedBP (v : VitalRecord) : Bool :=
  v.systolic.isSome && v.diastolic.isSome

theorem hrHigh_chunk (cfg : RiskCalculationConfig) (hr : List VitalRecord) :
    (VitalFlag.HEART_RATE_HIGH ∈ (heartRateDetails cfg hr).map FlagDetail.flag) ↔
    jsGe (headNum hr) cfg.vitals.heartRate.high = true := by
  match hr with
  | [] => simp [heartRateDetails, headNum, jsGe]
  | latest :: rest =>
    rcases hg : latest.numericValue with _ | v
    · simp [heartRateDetails, headNum, jsGe, hg]
    · by_cases hc : cfg.vitals.heartRate.high ≤ v <;> by_cases hc2 : v ≤ cfg.vitals.heartRate.low <;>
        simp [heartRateDetails, headNum, jsGe, hg, hc, hc2]

theorem hrLow_chunk (cfg : RiskCalculationConfig) (hr : List VitalRecord) :
    (VitalFlag.HEART_RATE_LOW ∈ (heartRateDetails cfg hr).map FlagDetail.flag) ↔
    jsLe (headNum hr) cfg.vitals.heartRate.low = true := by
  match hr with
  | [] => simp [heartRateDetails, headNum, jsLe]
  | latest :: rest =>
    rcases hg : latest.numericValue with _ | v
    · simp [heartRateDetails, headNum, jsLe, hg]
    · by_cases hc : cfg.vitals.heartRate.high ≤ v <;> by_cases hc2 : v ≤ cfg.vitals.heartRate.low <;>
        simp [heartRateDetails, headNum, jsLe, hg, hc, hc2]

theorem tempHigh_chunk (cfg : RiskCalculationConfig) (tp : List VitalRecord) :
    (VitalFlag.TEMPERATURE_HIGH ∈ (temperatureDetails cfg tp).map FlagDetail.flag) ↔
    jsGe (headNum tp) cfg.vitals.temperature.high = true := by
  match tp with
  | [] => simp [temperatureDetails, headNum, jsGe]
  | latest :: rest =>
    rcases hg : latest.numericValue with _ | v
    · simp [temperatureDetails, headNum, jsGe, hg]
    · by_cases hc : cfg.vitals.temperature.high ≤ v <;> by_cases hc2 : v ≤ cfg.vitals.temperature.low <;>
        simp [temperatureDetails, headNum, jsGe, hg, hc, hc2]

theorem tempLow_chunk (cfg : RiskCalculationConfig) (tp : List VitalRecord) :
    (VitalFlag.TEMPERATURE_LOW ∈ (temperatureDetails cfg tp).map FlagDetail.flag) ↔
    jsLe (headNum tp) cfg.vitals.temperature.low = true := by
  match tp with
  | [] => simp [temperatureDetails, headNum, jsLe]
  | latest :: rest =>
    rcases hg : latest.numericValue with _ | v
    · simp [temperatureDetails, headNum, jsLe, hg]
    · by_cases hc : cfg.vitals.temperature.high ≤ v <;> by_cases hc2 : v ≤ cfg.vitals.temperature.low <;>
        simp [temperatureDetails, headNum, jsLe, hg, hc, hc2]

theorem oxyLow_chunk (cfg : RiskCalculationConfig) (ox : List VitalRecord) :
    (VitalFlag.OXYGEN_LOW ∈ (oxygenDetails cfg ox).map FlagDetail.flag) ↔
    jsLe (headNum ox) cfg.vitals.oxygen.low = true := by
  match ox with
  | [] => simp [oxygenDetails, headNum, jsLe]
  | latest :: rest =>
    rcases hg : latest.numericValue with _ | v
    · simp [oxygenDetails, headNum, jsLe, hg]
    · by_cases hc : v ≤ cfg.vitals.oxygen.low <;>
        simp [oxygenDetails, headNum, jsLe, hg, hc]

/- ===================== C3: single-reading channels test only the latest ===================== -/

/-- A most recent in-window heart-rate reading of 80 bpm, on top of an older
in-window reading of 120 bpm. -/
def c3hrLatest : VitalRecord := { type := .heart_rate, numericValue := some 80, recordedAt := wNow - 1 }

def c3hrOld : VitalRecord := { type := .heart_rate, numericValue := some 120, recordedAt := wNow - 2 }

/-- Counterexample to C3: the list contains an in-window heart-rate reading of
120 bpm (≥ 100), yet no HEART_RATE_HIGH flag is emitted, because only the most
recent reading (80 bpm) is tested. -/
theorem C3_counterexample :
    c3hrOld ∈ recentVitals wNow [c3hrLatest, c3hrOld] ∧
    c3hrOld.type = VitalType.heart_rate ∧
    jsGe c3hrOld.numericValue 100 = true ∧
    VitalFlag.HEART_RATE_HIGH ∉ (analyzeVitals DEFAULT_RISK_CONFIG wNow [c3hrLatest, c3hrOld]).flags := by
  refine ⟨by decide, by decide, by decide, by decide⟩

/-- C3 (amended): for heart rate, temperature and oxygen saturation only the
most recent in-window reading of the channel is tested: the flag is present
iff that latest reading has a defined numeric value meeting the threshold
(heart rate ≥ 100 or ≤ 50; temperature ≥ 38 or ≤ 35; oxygen ≤ 92); an older
in-window reading meeting the threshold does not trigger by itself. -/
theorem C3_latest_reading_triggers (now : Int) (vs : List VitalRecord) :
    (VitalFlag.HEART_RATE_HIGH ∈ (analyzeVitals DEFAULT_RISK_CONFIG now vs).flags ↔
      jsGe (latestNum .heart_rate now vs) 100 = true) ∧
    (VitalFlag.HEART_RATE_LOW ∈ (analyzeVitals DEFAULT_RISK_CONFIG now vs).flags ↔
      jsLe (latestNum .heart_rate now vs) 50 = true) ∧
    (VitalFlag.TEMPERATURE_HIGH ∈ (analyzeVitals DEFAULT_RISK_CONFIG now vs).flags ↔
      jsGe (latestNum .temperature now vs) 38 = true) ∧
    (VitalFlag.TEMPERATURE_LOW ∈ (analyzeVitals DEFAULT_RISK_CONFIG now vs).flags ↔
      jsLe (latestNum .temperature now vs) 35 = true) ∧
    (VitalFlag.OXYGEN_LOW ∈ (analyzeVitals DEFAULT_RISK_CONFIG now vs).flags ↔
      jsLe (latestNum .oxygen_saturation now vs) 92 = true) := by
  refine ⟨?_, ?_, ?_, ?_, ?_⟩ <;> rw [mem_flags_localized]
  · exact hrHigh_chunk DEFAULT_RISK_CONFIG _
  · exact hrLow_chunk DEFAULT_RISK_CONFIG _
  · exact tempHigh_chunk DEFAULT_RISK_CONFIG _
  · exact tempLow_chunk DEFAULT_RISK_CONFIG _
  · exact oxyLow_chunk DEFAULT_RISK_CONFIG _

/-- A latest heart-rate reading of 130 bpm (meeting the high threshold). -/
def c3wvs : List VitalRecord := [{ type := .heart_rate, numericValue := some 130, recordedAt := wNow - 1 }]

/-- Witness for C3's amended theorem at a concrete input whose latest
heart-rate reading meets the high threshold. -/
theorem C3_latest_reading_triggers_witness :
    jsGe (latestNum .heart_rate wNow c3wvs) 100 = true ∧
    ((VitalFlag.HEART_RATE_HIGH ∈ (analyzeVitals DEFAULT_RISK_CONFIG wNow c3wvs).flags ↔
        jsGe (latestNum .heart_rate wNow c3wvs) 100 = true) ∧
      (VitalFlag.HEART_RATE_LOW ∈ (analyzeVitals DEFAULT_RISK_CONFIG wNow c3wvs).flags ↔
        jsLe (latestNum .heart_rate wNow c3wvs) 50 = true) ∧
      (VitalFlag.TEMPERATURE_HIGH ∈ (analyzeVitals DEFAULT_RISK_CONFIG wNow c3wvs).flags ↔
        jsGe (latestNum .temperature wNow c3wvs) 38 = true) ∧
      (VitalFlag.TEMPERATURE_LOW ∈ (analyzeVitals DEFAULT_RISK_CONFIG wNow c3wvs).flags ↔
        jsLe (latestNum .temperature wNow c3wvs) 35 = true) ∧
      (VitalFlag.OXYGEN_LOW ∈ (analyzeVitals DEFAULT_RISK_CONFIG wNow c3wvs).flags ↔
        jsLe (latestNum .oxygen_saturation wNow c3wvs) 92 = true)) :=
  ⟨by decide, C3_latest_reading_triggers wNow c3wvs⟩

/- ===================== C2: confirmation counts ===================== -/

theorem pressureHigh_chunk (cfg : RiskCalculationConfig) (bp : List VitalRecord)
    (h : headWellFormedBP bp = true) :
    (VitalFlag.PRESSURE_HIGH ∈ (pressureDetails cfg bp).map FlagDetail.flag) ↔
    2 ≤ (bp.filter (meetsHighBP cfg)).length := by
  match bp with
  | [] => simp [headWellFormedBP] at h
  | latest :: rest =>
    simp only [headWellFormedBP, Bool.and_eq_true, Option.isSome_iff_exists] at h
    obtain ⟨⟨s, hs⟩, ⟨dia, hd⟩⟩ := h
    by_cases hc : 2 ≤ ((latest :: rest).filter (meetsHighBP cfg)).length <;>
      by_cases hc2 : 2 ≤ ((latest :: rest).filter (meetsLowBP cfg)).length <;>
        simp [pressureDetails, hs, hd, hc, hc2]

theorem glucoseHigh_chunk (cfg : RiskCalculationConfig) (gl : List VitalRecord)
    (h : (headNum gl).isSome = true) :
    (VitalFlag.GLUCOSE_HIGH ∈ (glucoseDetails cfg gl).map FlagDetail.flag) ↔
    2 ≤ (gl.filter (fun v => jsGe v.numericValue cfg.vitals.glucose.high)).length := by
  match gl with
  | [] => simp [headNum] at h
  | latest :: rest =>
    simp only [headNum, Option.isSome_iff_exists] at h
    obtain ⟨g, hg⟩ := h
    by_cases hc : 2 ≤ ((latest :: rest).filter
        (fun v => jsGe v.numericValue cfg.vitals.glucose.high)).length <;>
      by_cases hc2 : 1 ≤ ((latest :: rest).filter
          (fun v => jsLe v.numericValue cfg.vitals.glucose.low)).length <;>
        simp [glucoseDetails, hg, hc, hc2]

theorem glucoseLow_chunk (cfg : RiskCalculationConfig) (gl : List VitalRecord)
    (h : (headNum gl).isSome = true) :
    (VitalFlag.GLUCOSE_LOW ∈ (glucoseDetails cfg gl).map FlagDetail.flag) ↔
    1 ≤ (gl.filter (fun v => jsLe v.numericValue cfg.vitals.glucose.low)).length := by
  match gl with
  | [] => simp [headNum] at h
  | latest :: rest =>
    simp only [headNum, Option.isSome_iff_exists] at h
    obtain ⟨g, hg⟩ := h
    by_cases hc : 2 ≤ ((latest :: rest).filter
        (fun v => jsGe v.numericValue cfg.vitals.glucose.high)).length <;>
      by_cases hc2 : 1 ≤ ((latest :: rest).filter
          (fun v => jsLe v.numericValue cfg.vitals.glucose.low)).length <;>
        simp [glucoseDetails, hg, hc, hc2]

/-- Counting over a sorted channel group equals counting over the in-window
records of that channel. -/
theorem countOver_vitalsOfType (t : VitalType) (recent : List VitalRecord)
    (p : VitalRecord → Bool) :
    ((vitalsOfType t recent).filter p).length =
    (recent.filter (fun v => decide (v.type = t) && p v)).length := by
  rw [vitalsOfType, length_filter_sortDesc, List.filter_filter]
  congr 1
  apply List.filter_congr
  intro v _
  exact Bool.and_comm _ _

/-- A most recent in-window blood-pressure record missing both fields, on top
of two older qualifying high readings (145/92 and 142/90). -/
def c2bpBad : VitalRecord := { type := .blood_pressure, recordedAt := wNow - 1 }

def c2bp1 : VitalRecord :=
  { type := .blood_pressure, systolic := some 145, diastolic := some 92, recordedAt := wNow - 2 }

def c2bp2 : VitalRecord :=
  { type := .blood_pressure, systolic := some 142, diastolic := some 90, recordedAt := wNow - 3 }

/-- Counterexample to C2: two in-window blood-pressure readings meet the high
threshold, yet PRESSURE_HIGH is not emitted, because the most recent in-window
blood-pressure record is missing its fields and the whole pressure branch is
gated on it. -/
theorem C2_counterexample :
    2 ≤ ((recentVitals wNow [c2bpBad, c2bp1, c2bp2]).filter
      (fun v => decide (v.type = VitalType.blood_pressure) &&
        (jsGe v.systolic 140 || jsGe v.diastolic 90))).length ∧
    VitalFlag.PRESSURE_HIGH ∉ (analyzeVitals DEFAULT_RISK_CONFIG wNow [c2bpBad, c2bp1, c2bp2]).flags := by
  refine ⟨by decide, by decide⟩

/-- C2 (amended): provided the most recent in-window blood-pressure record has
both systolic and diastolic defined, PRESSURE_HIGH is emitted iff at least 2
in-window blood-pressure readings meet the high threshold (systolic ≥ 140 or
diastolic ≥ 90); and provided the most recent in-window glucose record has a
numeric value, GLUCOSE_HIGH is emitted iff at least 2 in-window glucose
readings are ≥ 180, while GLUCOSE_LOW is emitted iff at least 1 in-window
glucose reading is ≤ 70.  (Without the proviso a malformed most recent record
suppresses the channel's flags: `C2_counterexample`.) -/
theorem C2_confirmation_counts (now : Int) (vs : List VitalRecord)
    (hbp : headWellFormedBP (vitalsOfType .blood_pressure (recentVitals now vs)) = true)
    (hgl : (latestNum .glucose now vs).isSome = true) :
    (VitalFlag.PRESSURE_HIGH ∈ (analyzeVitals DEFAULT_RISK_CONFIG now vs).flags ↔
      2 ≤ ((recentVitals now vs).filter
        (fun v => decide (v.type = VitalType.blood_pressure) &&
          meetsHighBP DEFAULT_RISK_CONFIG v)).length) ∧
    (VitalFlag.GLUCOSE_HIGH ∈ (analyzeVitals DEFAULT_RISK_CONFIG now vs).flags ↔
      2 ≤ ((recentVitals now vs).filter
        (fun v => decide (v.type = VitalType.glucose) && jsGe v.numericValue 180)).length) ∧
    (VitalFlag.GLUCOSE_LOW ∈ (analyzeVitals DEFAULT_RISK_CONFIG now vs).flags ↔
      1 ≤ ((recentVitals now vs).filter
        (fun v => decide (v.type = VitalType.glucose) && jsLe v.numericValue 70)).length) := by
  refine ⟨?_, ?_, ?_⟩
  · rw [mem_flags_localized, ← countOver_vitalsOfType]
    exact pressureHigh_chunk DEFAULT_RISK_CONFIG _ hbp
  · rw [mem_flags_localized, ← countOver_vitalsOfType]
    exact glucoseHigh_chunk DEFAULT_RISK_CONFIG _ hgl
  · rw [mem_flags_localized, ← countOver_vitalsOfType]
    exact glucoseLow_chunk DEFAULT_RISK_CONFIG _ hgl

/-- Two qualifying high blood-pressure readings (well-formed, latest first)
plus a single glucose reading of 65. -/
def c2wvs : List VitalRecord :=
  [ { type := .blood_pressure, systolic := some 145, diastolic := some 92, recordedAt := wNow - 1 }
  , { type := .blood_pressure, systolic := some 142, diastolic := some 90, recordedAt := wNow - 2 }
  , { type := .glucose, numericValue := some 65, recordedAt := wNow - 3 } ]

/-- Witness for C2's amended theorem at a concrete input with well-formed
latest records. -/
theorem C2_confirmation_counts_witness :
    headWellFormedBP (vitalsOfType .blood_pressure (recentVitals wNow c2wvs)) = true ∧
    (latestNum .glucose wNow c2wvs).isSome = true ∧
    ((VitalFlag.PRESSURE_HIGH ∈ (analyzeVitals DEFAULT_RISK_CONFIG wNow c2wvs).flags ↔
        2 ≤ ((recentVitals wNow c2wvs).filter
          (fun v => decide (v.type = VitalType.blood_pressure) &&
            meetsHighBP DEFAULT_RISK_CONFIG v)).length) ∧
      (VitalFlag.GLUCOSE_HIGH ∈ (analyzeVitals DEFAULT_RISK_CONFIG wNow c2wvs).flags ↔
        2 ≤ ((recentVitals wNow c2wvs).filter
          (fun v => decide (v.type = VitalType.glucose) && jsGe v.numericValue 180)).length) ∧
      (VitalFlag.GLUCOSE_LOW ∈ (analyzeVitals DEFAULT_RISK_CONFIG wNow c2wvs).flags ↔
        1 ≤ ((recentVitals wNow c2wvs).filter
          (fun v => decide (v.type = VitalType.glucose) && jsLe v.numericValue 70)).length)) :=
  ⟨by decide, by decide, C2_confirmation_counts wNow c2wvs (by decide) (by decide)⟩

/- ===================== C4: malformed blood-pressure records ===================== -/

/-- The detail belongs to the pressure channel. -/
def pressureFlagged (d : FlagDetail) : Bool :=
  decide (d.flag = VitalFlag.PRESSURE_HIGH) || decide (d.flag = VitalFlag.PRESSURE_LOW)

theorem filter_pressure_analyzeVitals (cfg : RiskCalculationConfig) (now : Int)
    (vs : List VitalRecord) :
    (analyzeVitals cfg now vs).flagDetails.filter pressureFlagged =
      pressureDetails cfg (vitalsOfType .blood_pressure (recentVitals now vs)) := by
  simp only [analyzeVitals, List.filter_append]
  rw [List.filter_eq_self.2, List.filter_eq_nil_iff.2, List.filter_eq_nil_iff.2,
    List.filter_eq_nil_iff.2, List.filter_eq_nil_iff.2]
  · simp
  · intro d hd
    simp [pressureFlagged, mem_oxygenDetails_flag hd]
  · intro d hd
    rcases mem_temperatureDetails_flag hd with hf | hf <;> simp [pressureFlagged, hf]
  · intro d hd
    rcases mem_heartRateDetails_flag hd with hf | hf <;> simp [pressureFlagged, hf]
  · intro d hd
    rcases mem_glucoseDetails_flag hd with hf | hf <;> simp [pressureFlagged, hf]
  · intro d hd
    rcases mem_pressureDetails_flag hd with hf | hf <;> simp [pressureFlagged, hf]

theorem filter_filter_of_imp {α : Type} (p q : α → Bool) (l : List α)
    (h : ∀ v ∈ l, p v = true → q v = true) :
    (l.filter q).filter p = l.filter p := by
  induction l with
  | nil => rfl
  | cons x xs ih =>
    have hx := h x (by simp)
    have hxs : ∀ v ∈ xs, p v = true → q v = true := fun v hv => h v (by simp [hv])
    by_cases hq : q x = true
    · by_cases hp : p x = true <;> simp [List.filter_cons, hq, hp, ih hxs]
    · have hp : p x = false := by
        cases hpx : p x
        · rfl
        · exact absurd (hx hpx) hq
      simp [List.filter_cons, hq, hp, ih hxs]

/-- When the most recent in-window blood-pressure record is well-formed and no
malformed record satisfies a threshold comparison, the pressure branch gives
the same details as over the well-formed records alone. -/
theorem pressureDetails_wf_eq (cfg : RiskCalculationConfig) (bp : List VitalRecord)
    (h1 : headWellFormedBP bp = true)
    (h2 : ∀ v ∈ bp, wellFormedBP v = false →
      meetsHighBP cfg v = false ∧ meetsLowBP cfg v = false) :
    pressureDetails cfg bp = pressureDetails cfg (bp.filter wellFormedBP) := by
  match bp with
  | [] => simp [headWellFormedBP] at h1
  | latest :: rest =>
    have hwf : wellFormedBP latest = true := by
      simpa [headWellFormedBP, wellFormedBP] using h1
    have hfil : (latest :: rest).filter wellFormedBP = latest :: rest.filter wellFormedBP := by
      simp [hwf]
    have himpHigh : ∀ v ∈ latest :: rest, meetsHighBP cfg v = true → wellFormedBP v = true := by
      intro v hv hm
      cases hw : wellFormedBP v
      · exact absurd hm (by simp [(h2 v hv hw).1])
      · rfl
    have himpLow : ∀ v ∈ latest :: rest, meetsLowBP cfg v = true → wellFormedBP v = true := by
      intro v hv hm
      cases hw : wellFormedBP v
      · exact absurd hm (by simp [(h2 v hv hw).2])
      · rfl
    have e1 : (((latest :: rest).filter wellFormedBP).filter (meetsHighBP cfg)).length =
        ((latest :: rest).filter (meetsHighBP cfg)).length := by
      rw [filter_filter_of_imp (meetsHighBP cfg) wellFormedBP _ himpHigh]
    have e2 : (((latest :: rest).filter wellFormedBP).filter (meetsLowBP cfg)).length =
        ((latest :: rest).filter (meetsLowBP cfg)).length := by
      rw [filter_filter_of_imp (meetsLowBP cfg) wellFormedBP _ himpLow]
    rw [hfil] at e1 e2 ⊢
    rcases hs : latest.systolic with _ | s
    · rw [wellFormedBP, hs] at hwf
      simp at hwf
    rcases hd : latest.diastolic with _ | dval
    · rw [wellFormedBP, hd] at hwf
      simp at hwf
    simp only [pressureDetails, hs, hd, e1, e2]

/-- A most recent blood-pressure record with no fields, above two well-formed
low readings (85/55 and 86/56). -/
def c4vs : List VitalRecord :=
  [ { type := .blood_pressure, recordedAt := wNow - 1 }
  , { type := .blood_pressure, systolic := some 85, diastolic := some 55, recordedAt := wNow - 2 }
  , { type := .blood_pressure, systolic := some 86, diastolic := some 56, recordedAt := wNow - 3 } ]

/-- Counterexample to C4: with a malformed most recent blood-pressure record,
`analyzeVitals` emits no pressure flags, while the well-formed in-window
blood-pressure records alone yield a confirmed PRESSURE_LOW — so the malformed
record is not merely skipped. -/
theorem C4_counterexample :
    (analyzeVitals DEFAULT_RISK_CONFIG wNow c4vs).flagDetails.filter pressureFlagged = [] ∧
    pressureDetails DEFAULT_RISK_CONFIG
        ((vitalsOfType .blood_pressure (recentVitals wNow c4vs)).filter wellFormedBP) =
      [{ flag := .PRESSURE_LOW, value := 85, threshold := 90, severity := .medium }] := by
  refine ⟨by decide, by decide⟩

/-- C4 (amended): a malformed blood-pressure record never aborts the analysis,
and when the most recent in-window blood-pressure record is well-formed and no
malformed record satisfies a threshold comparison through its remaining field,
the emitted pressure flag details equal those computed from the well-formed
in-window blood-pressure records alone.  (If the most recent record is
malformed the whole pressure channel is suppressed — `C4_counterexample` — and
a record missing only one field still counts toward confirmation through the
other field's comparison.) -/
theorem C4_malformed_skip (cfg : RiskCalculationConfig) (now : Int) (vs : List VitalRecord)
    (h1 : headWellFormedBP (vitalsOfType .blood_pressure (recentVitals now vs)) = true)
    (h2 : ∀ v ∈ vitalsOfType .blood_pressure (recentVitals now vs), wellFormedBP v = false →
      meetsHighBP cfg v = false ∧ meetsLowBP cfg v = false) :
    (analyzeVitals cfg now vs).flagDetails.filter pressureFlagged =
      pressureDetails cfg
        ((vitalsOfType .blood_pressure (recentVitals now vs)).filter wellFormedBP) := by
  rw [filter_pressure_analyzeVitals]
  exact pressureDetails_wf_eq cfg _ h1 h2

/-- Two well-formed qualifying high readings around a malformed record. -/
def c4wvs : List VitalRecord :=
  [ { type := .blood_pressure, systolic := some 145, diastolic := some 92, recordedAt := wNow - 1 }
  , { type := .blood_pressure, recordedAt := wNow - 2 }
  , { type := .blood_pressure, systolic := some 142, diastolic := some 90, recordedAt := wNow - 3 } ]

/-- Witness for C4's amended theorem: with a well-formed latest record, the
malformed middle record is skipped and the pressure flags equal those of the
well-formed records alone. -/
theorem C4_malformed_skip_witness :
    headWellFormedBP (vitalsOfType .blood_pressure (recentVitals wNow c4wvs)) = true ∧
    (∀ v ∈ vitalsOfType .blood_pressure (recentVitals wNow c4wvs), wellFormedBP v = false →
      meetsHighBP DEFAULT_RISK_CONFIG v = false ∧ meetsLowBP DEFAULT_RISK_CONFIG v = false) ∧
    (analyzeVitals DEFAULT_RISK_CONFIG wNow c4wvs).flagDetails.filter pressureFlagged =
      pressureDetails DEFAULT_RISK_CONFIG
        ((vitalsOfType .blood_pressure (recentVitals wNow c4wvs)).filter wellFormedBP) :=
  ⟨by decide, by decide, C4_malformed_skip DEFAULT_RISK_CONFIG wNow c4wvs (by decide) (by decide)⟩

/- ===================== C10: flag details report the latest reading ===================== -/

/-- The severity ladder used for a flag (inline literals of the source). -/
def sevOf (f : VitalFlag) : ℚ → Severity :=
  match f with
  | .PRESSURE_HIGH => sevPressureHigh
  | .PRESSURE_LOW => sevPressureLow
  | .GLUCOSE_HIGH => sevGlucoseHigh
  | .GLUCOSE_LOW => sevGlucoseLow
  | .HEART_RATE_HIGH => sevHeartRateHigh
  | .HEART_RATE_LOW => sevHeartRateLow
  | .TEMPERATURE_HIGH => sevTemperatureHigh
  | .TEMPERATURE_LOW => sevTemperatureLow
  | .OXYGEN_LOW => sevOxygenLow

/-- The field of a record a flag's reported value is read from (the pressure
flags report the systolic value, every other flag the numeric value). -/
def flagSourceValue (f : VitalFlag) (v : VitalRecord) : Option ℚ :=
  match f with
  | .PRESSURE_HIGH | .PRESSURE_LOW => v.systolic
  | _ => v.numericValue

theorem pressureDetails_latest {cfg : RiskCalculationConfig} {bp : List VitalRecord}
    {d : FlagDetail} (h : d ∈ pressureDetails cfg bp) :
    ∃ latest rest, bp = latest :: rest ∧ flagSourceValue d.flag latest = some d.value ∧
      d.severity = sevOf d.flag d.value := by
  match bp with
  | [] => simp [pressureDetails] at h
  | latest :: rest =>
    rw [pressureDetails] at h
    rcases hs : latest.systolic with _ | s <;> rcases hd2 : latest.diastolic with _ | dia <;>
      simp [hs, hd2] at h
    rcases h with ⟨_, rfl⟩ | ⟨_, rfl⟩ <;>
      exact ⟨latest, rest, rfl, by simp [flagSourceValue, hs], rfl⟩

theorem glucoseDetails_latest {cfg : RiskCalculationConfig} {gl : List VitalRecord}
    {d : FlagDetail} (h : d ∈ glucoseDetails cfg gl) :
    ∃ latest rest, gl = latest :: rest ∧ flagSourceValue d.flag latest = some d.value ∧
      d.severity = sevOf d.flag d.value := by
  match gl with
  | [] => simp [glucoseDetails] at h
  | latest :: rest =>
    rw [glucoseDetails] at h
    rcases hg : latest.numericValue with _ | g <;> simp [hg] at h
    rcases h with ⟨_, rfl⟩ | ⟨_, rfl⟩ <;>
      exact ⟨latest, rest, rfl, by simp [flagSourceValue, hg], rfl⟩

theorem heartRateDetails_latest {cfg : RiskCalculationConfig} {hr : List VitalRecord}
    {d : FlagDetail} (h : d ∈ heartRateDetails cfg hr) :
    ∃ latest rest, hr = latest :: rest ∧ flagSourceValue d.flag latest = some d.value ∧
      d.severity = sevOf d.flag d.value := by
  match hr with
  | [] => simp [heartRateDetails] at h
  | latest :: rest =>
    rw [heartRateDetails] at h
    rcases hg : latest.numericValue with _ | g <;> simp [hg] at h
    rcases h with ⟨_, rfl⟩ | ⟨_, rfl⟩ <;>
      exact ⟨latest, rest, rfl, by simp [flagSourceValue, hg], rfl⟩

theorem temperatureDetails_latest {cfg : RiskCalculationConfig} {tp : List VitalRecord}
    {d : FlagDetail} (h : d ∈ temperatureDetails cfg tp) :
    ∃ latest rest, tp = latest :: rest ∧ flagSourceValue d.flag latest = some d.value ∧
      d.severity = sevOf d.flag d.value := by
  match tp with
  | [] => simp [temperatureDetails] at h
  | latest :: rest =>
    rw [temperatureDetails] at h
    rcases hg : latest.numericValue with _ | g <;> simp [hg] at h
    rcases h with ⟨_, rfl⟩ | ⟨_, rfl⟩ <;>
      exact ⟨latest, rest, rfl, by simp [flagSourceValue, hg], rfl⟩

theorem oxygenDetails_latest {cfg : RiskCalculationConfig} {ox : List VitalRecord}
    {d : FlagDetail} (h : d ∈ oxygenDetails cfg ox) :
    ∃ latest rest, ox = latest :: rest ∧ flagSourceValue d.flag latest = some d.value ∧
      d.severity = sevOf d.flag d.value := by
  match ox with
  | [] => simp [oxygenDetails] at h
  | latest :: rest =>
    rw [oxygenDetails] at h
    rcases hg : latest.numericValue with _ | g <;> simp [hg] at h
    rcases h with ⟨_, rfl⟩
    exact ⟨latest, rest, rfl, by simp [flagSourceValue, hg], rfl⟩

/-- C10: in every emitted flag detail, the reported value and the severity are
computed from the most recent in-window reading of the flag's channel (for
pressure flags its systolic field, otherwise its numeric value), not from the
reading(s) that satisfied the trigger threshold. -/
theorem C10_latest_value_severity (cfg : RiskCalculationConfig) (now : Int)
    (vs : List VitalRecord) (d : FlagDetail)
    (h : d ∈ (analyzeVitals cfg now vs).flagDetails) :
    ∃ latest rest, vitalsOfType (channelOf d.flag) (recentVitals now vs) = latest :: rest ∧
      flagSourceValue d.flag latest = some d.value ∧
      d.severity = sevOf d.flag d.value := by
  simp only [analyzeVitals, List.mem_append] at h
  rcases h with (((h | h) | h) | h) | h
  · obtain ⟨latest, rest, heq, hv, hs⟩ := pressureDetails_latest h
    have hch : channelOf d.flag = VitalType.blood_pressure := by
      rcases mem_pressureDetails_flag h with hf | hf <;> simp [channelOf, hf]
    rw [hch]
    exact ⟨latest, rest, heq, hv, hs⟩
  · obtain ⟨latest, rest, heq, hv, hs⟩ := glucoseDetails_latest h
    have hch : channelOf d.flag = VitalType.glucose := by
      rcases mem_glucoseDetails_flag h with hf | hf <;> simp [channelOf, hf]
    rw [hch]
    exact ⟨latest, rest, heq, hv, hs⟩
  · obtain ⟨latest, rest, heq, hv, hs⟩ := heartRateDetails_latest h
    have hch : channelOf d.flag = VitalType.heart_rate := by
      rcases mem_heartRateDetails_flag h with hf | hf <;> simp [channelOf, hf]
    rw [hch]
    exact ⟨latest, rest, heq, hv, hs⟩
  · obtain ⟨latest, rest, heq, hv, hs⟩ := temperatureDetails_latest h
    have hch : channelOf d.flag = VitalType.temperature := by
      rcases mem_temperatureDetails_flag h with hf | hf <;> simp [channelOf, hf]
    rw [hch]
    exact ⟨latest, rest, heq, hv, hs⟩
  · obtain ⟨latest, rest, heq, hv, hs⟩ := oxygenDetails_latest h
    have hch : channelOf d.flag = VitalType.oxygen_saturation := by
      simp [channelOf, mem_oxygenDetails_flag h]
    rw [hch]
    exact ⟨latest, rest, heq, hv, hs⟩

/-- The spec's own example: an older in-window glucose reading of 55 with a
latest reading of 120. -/
def c10vs : List VitalRecord :=
  [ { type := .glucose, numericValue := some 120, recordedAt := wNow - 1 }
  , { type := .glucose, numericValue := some 55, recordedAt := wNow - 2 } ]

/-- The flag detail emitted for `c10vs`: GLUCOSE_LOW reported with the latest
value 120 and severity low (not the triggering 55 / high). -/
def c10detail : FlagDetail :=
  { flag := .GLUCOSE_LOW, value := 120, threshold := 70, severity := .low }

/-- Witness for C10 at the spec's example: GLUCOSE_LOW is emitted with value
120 and severity low, and the value/severity come from the latest in-window
glucose reading. -/
theorem C10_latest_value_severity_witness :
    (analyzeVitals DEFAULT_RISK_CONFIG wNow c10vs).flagDetails = [c10detail] ∧
    c10detail ∈ (analyzeVitals DEFAULT_RISK_CONFIG wNow c10vs).flagDetails ∧
    (∃ latest rest,
      vitalsOfType (channelOf c10detail.flag) (recentVitals wNow c10vs) = latest :: rest ∧
      flagSourceValue c10detail.flag latest = some c10detail.value ∧
      c10detail.severity = sevOf c10detail.flag c10detail.value) :=
  ⟨by decide, by decide,
    C10_latest_value_severity DEFAULT_RISK_CONFIG wNow c10vs c10detail (by decide)⟩

/- ===================== risk score decomposition ===================== -/

theorem vitalsFold_score (cfg : RiskCalculationConfig) (base : ℚ × List Reason)
    (ds : List FlagDetail) :
    (ds.foldl (fun acc d =>
      (acc.1 + (flagContribution cfg d).1, acc.2 ++ [(flagContribution cfg d).2])) base).1
    = base.1 + (ds.map (fun d => (flagContribution cfg d).1)).sum := by
  induction ds generalizing base with
  | nil => simp
  | cons d ds ih =>
    rw [List.foldl_cons, ih]
    simp
    ring

theorem vitalsFold_reasons (cfg : RiskCalculationConfig) (base : ℚ × List Reason)
    (ds : List FlagDetail) :
    (ds.foldl (fun acc d =>
      (acc.1 + (flagContribution cfg d).1, acc.2 ++ [(flagContribution cfg d).2])) base).2
    = base.2 ++ ds.map (fun d => (flagContribution cfg d).2) := by
  induction ds generalizing base with
  | nil => simp
  | cons d ds ih =>
    rw [List.foldl_cons, ih]
    simp

/-- The unclamped score, decomposed into the four contribution groups. -/
theorem rawRisk_score_decomp (cfg : RiskCalculationConfig) (adh : AdherenceAnalysis)
    (vit : VitalsAnalysis) (ex : ExamsAnalysis) :
    (rawRisk cfg adh vit ex).1 =
      (adherencePart cfg adh).1 +
      (vit.flagDetails.map (fun d => (flagContribution cfg d).1)).sum +
      (if 0 < ex.overdueExams then cfg.exams.overdueWeight * ex.overdueExams else 0) +
      (if 3 < ex.pendingExams then cfg.exams.pendingWeight else 0) := by
  rw [rawRisk]
  by_cases h1 : 0 < ex.overdueExams <;> by_cases h2 : 3 < ex.pendingExams <;>
    simp only [h1, h2, if_true, if_false, vitalsFold_score] <;> ring

/-- The reasons list, decomposed into the four contribution groups. -/
theorem rawRisk_reasons_decomp (cfg : RiskCalculationConfig) (adh : AdherenceAnalysis)
    (vit : VitalsAnalysis) (ex : ExamsAnalysis) :
    (rawRisk cfg adh vit ex).2 =
      (adherencePart cfg adh).2 ++
      vit.flagDetails.map (fun d => (flagContribution cfg d).2) ++
      (if 0 < ex.overdueExams then [Reason.overdueExams ex.overdueExams cfg.exams.overdueDays]
       else []) ++
      (if 3 < ex.pendingExams then [Reason.pendingExams ex.pendingExams] else []) := by
  rw [rawRisk]
  by_cases h1 : 0 < ex.overdueExams <;> by_cases h2 : 3 < ex.pendingExams <;>
    simp only [h1, h2, if_true, if_false, vitalsFold_reasons] <;> simp

/- ===================== C1: severity multipliers per flag ===================== -/

def severityMultiplier (s : Severity) : ℚ := if s = .high then 3/2 else 1

/-- The configured weight of a flag's channel. -/
def channelWeight (cfg : RiskCalculationConfig) (f : VitalFlag) : ℚ :=
  match f with
  | .PRESSURE_HIGH | .PRESSURE_LOW => cfg.vitals.pressure.weight
  | .GLUCOSE_HIGH | .GLUCOSE_LOW => cfg.vitals.glucose.weight
  | .HEART_RATE_HIGH | .HEART_RATE_LOW => cfg.vitals.heartRate.weight
  | .TEMPERATURE_HIGH | .TEMPERATURE_LOW => cfg.vitals.temperature.weight
  | .OXYGEN_LOW => cfg.vitals.oxygen.weight

/-- The per-flag score contribution as the spec describes it, amended: only
PRESSURE_HIGH, GLUCOSE_HIGH and OXYGEN_LOW carry the severity multiplier;
GLUCOSE_LOW multiplies by 1.5 unconditionally; PRESSURE_LOW and the heart-rate
and temperature flags always contribute the bare channel weight. -/
def specFlagContribution (cfg : RiskCalculationConfig) (d : FlagDetail) : ℚ :=
  if d.flag = VitalFlag.PRESSURE_HIGH ∨ d.flag = VitalFlag.GLUCOSE_HIGH ∨
      d.flag = VitalFlag.OXYGEN_LOW then
    channelWeight cfg d.flag * severityMultiplier d.severity
  else if d.flag = VitalFlag.GLUCOSE_LOW then
    channelWeight cfg d.flag * (3/2)
  else
    channelWeight cfg d.flag

theorem flagContribution_eq_spec (cfg : RiskCalculationConfig) (d : FlagDetail) :
    (flagContribution cfg d).1 = specFlagContribution cfg d := by
  rcases d with ⟨f, v, t, s⟩
  cases f <;> cases s <;>
    simp [flagContribution, specFlagContribution, channelWeight, severityMultiplier]

/-- The concrete flag-detail list of `C1_counterexample`. -/
def c1vs : List VitalRecord :=
  [ { type := .blood_pressure, systolic := some 75, diastolic := some 55, recordedAt := wNow - 1 }
  , { type := .blood_pressure, systolic := some 76, diastolic := some 56, recordedAt := wNow - 2 } ]

def aGoodRec : AdherenceAnalysis :=
  { days := 30, totalReminders := 0, taken := 0, late := 0, missed := 0
  , adherenceRate := 100, adherenceStatus := .good }

def eZeroRec : ExamsAnalysis := { pendingExams := 0, overdueExams := 0, completedExams := 0 }

/-- Counterexample to C1: a flag-detail list containing a PRESSURE_LOW flag of
severity high contributes the bare pressure weight 15, not weight × 1.5 = 22.5
— the severity multiplier is applied to PRESSURE_HIGH only, never to
PRESSURE_LOW. -/
theorem C1_counterexample :
    (analyzeVitals DEFAULT_RISK_CONFIG wNow c1vs).flagDetails =
      [{ flag := .PRESSURE_LOW, value := 75, threshold := 90, severity := .high }] ∧
    (calculateRiskScore DEFAULT_RISK_CONFIG aGoodRec
      (analyzeVitals DEFAULT_RISK_CONFIG wNow c1vs) eZeroRec).value = 15 ∧
    DEFAULT_RISK_CONFIG.vitals.pressure.weight * (3/2) ≠ 15 := by
  refine ⟨by decide, ?_, by norm_num [DEFAULT_RISK_CONFIG]⟩
  have hd : (analyzeVitals DEFAULT_RISK_CONFIG wNow c1vs).flagDetails =
      [{ flag := .PRESSURE_LOW, value := 75, threshold := 90, severity := .high }] := by decide
  rw [calculateRiskScore]
  have hs := rawRisk_score_decomp DEFAULT_RISK_CONFIG aGoodRec
    (analyzeVitals DEFAULT_RISK_CONFIG wNow c1vs) eZeroRec
  rw [hd] at hs
  rw [hs]
  norm_num [adherencePart, aGoodRec, eZeroRec, flagContribution, DEFAULT_RISK_CONFIG,
    jmin, jmax, jround_eq]

/-- C1 (amended): each confirmed vital flag adds its channel's configured
weight; the weight is multiplied by 1.5 when severity is high for the
PRESSURE_HIGH, GLUCOSE_HIGH and OXYGEN_LOW flags only; GLUCOSE_LOW multiplies
by 1.5 unconditionally; PRESSURE_LOW and the heart-rate and temperature flags
always add exactly their base weight regardless of severity. -/
theorem C1_contribution_rule (cfg : RiskCalculationConfig) (adh : AdherenceAnalysis)
    (vit : VitalsAnalysis) (ex : ExamsAnalysis) :
    (rawRisk cfg adh vit ex).1 =
      (adherencePart cfg adh).1 +
      (vit.flagDetails.map (specFlagContribution cfg)).sum +
      (if 0 < ex.overdueExams then cfg.exams.overdueWeight * ex.overdueExams else 0) +
      (if 3 < ex.pendingExams then cfg.exams.pendingWeight else 0) ∧
    ∀ d : FlagDetail, d.flag = VitalFlag.PRESSURE_LOW →
      specFlagContribution cfg d = cfg.vitals.pressure.weight := by
  constructor
  · rw [rawRisk_score_decomp]
    simp only [flagContribution_eq_spec]
  · intro d hf
    simp [specFlagContribution, hf, channelWeight]

def c1plDetail : FlagDetail :=
  { flag := .PRESSURE_LOW, value := 75, threshold := 90, severity := .high }

/-- Witness for C1's amended theorem: the decomposition at a concrete input,
and the bare-weight contribution of a severity-high PRESSURE_LOW detail. -/
theorem C1_contribution_rule_witness :
    (rawRisk DEFAULT_RISK_CONFIG aGoodRec
        { lastMeasurements := {}, flags := [.PRESSURE_LOW], flagDetails := [c1plDetail] }
        eZeroRec).1 =
      (adherencePart DEFAULT_RISK_CONFIG aGoodRec).1 +
      (([c1plDetail] : List FlagDetail).map (specFlagContribution DEFAULT_RISK_CONFIG)).sum +
      (if 0 < eZeroRec.overdueExams then
        DEFAULT_RISK_CONFIG.exams.overdueWeight * eZeroRec.overdueExams else 0) +
      (if 3 < eZeroRec.pendingExams then DEFAULT_RISK_CONFIG.exams.pendingWeight else 0) ∧
    c1plDetail.flag = VitalFlag.PRESSURE_LOW ∧
    specFlagContribution DEFAULT_RISK_CONFIG c1plDetail =
      DEFAULT_RISK_CONFIG.vitals.pressure.weight :=
  ⟨(C1_contribution_rule DEFAULT_RISK_CONFIG aGoodRec
      { lastMeasurements := {}, flags := [.PRESSURE_LOW], flagDetails := [c1plDetail] }
      eZeroRec).1,
   rfl,
   (C1_contribution_rule DEFAULT_RISK_CONFIG aGoodRec
      { lastMeasurements := {}, flags := [.PRESSURE_LOW], flagDetails := [c1plDetail] }
      eZeroRec).2 c1plDetail rfl⟩

/- ===================== C8: risk score invariants ===================== -/

/-- The score is always an integer multiple of one half at the default
configuration, so the two-decimal rounding of `calculateRiskScore` is exact. -/
def halfIntegral (q : ℚ) : Prop := ∃ k : ℤ, q = k / 2

theorem halfIntegral_add {a b : ℚ} (ha : halfIntegral a) (hb : halfIntegral b) :
    halfIntegral (a + b) := by
  obtain ⟨m, rfl⟩ := ha
  obtain ⟨n, rfl⟩ := hb
  exact ⟨m + n, by push_cast; ring⟩

theorem halfIntegral_flag (d : FlagDetail) :
    halfIntegral (flagContribution DEFAULT_RISK_CONFIG d).1 := by
  rcases d with ⟨f, v, t, s⟩
  cases f <;> cases s <;>
    simp [flagContribution, DEFAULT_RISK_CONFIG] <;>
    first
      | (refine ⟨45, ?_⟩; norm_num; done)
      | (refine ⟨30, ?_⟩; norm_num; done)
      | (refine ⟨20, ?_⟩; norm_num; done)
      | (refine ⟨60, ?_⟩; norm_num; done)
      | (refine ⟨40, ?_⟩; norm_num; done)

theorem halfIntegral_flagSum (ds : List FlagDetail) :
    halfIntegral ((ds.map (fun d => (flagContribution DEFAULT_RISK_CONFIG d).1)).sum) := by
  induction ds with
  | nil => exact ⟨0, by norm_num⟩
  | cons d ds ih =>
    rw [List.map_cons, List.sum_cons]
    exact halfIntegral_add (halfIntegral_flag d) ih

theorem halfIntegral_raw (adh : AdherenceAnalysis) (vit : VitalsAnalysis)
    (ex : ExamsAnalysis) :
    halfIntegral (rawRisk DEFAULT_RISK_CONFIG adh vit ex).1 := by
  rw [rawRisk_score_decomp]
  refine halfIntegral_add (halfIntegral_add (halfIntegral_add ?_ (halfIntegral_flagSum _)) ?_) ?_
  · rcases hst : adh.adherenceStatus
    · refine ⟨0, ?_⟩
      simp [adherencePart, hst]
    · refine ⟨20, ?_⟩
      rw [adherencePart, hst]
      norm_num [DEFAULT_RISK_CONFIG]
    · refine ⟨50, ?_⟩
      rw [adherencePart, hst]
      norm_num [DEFAULT_RISK_CONFIG]
  · split
    · exact ⟨30 * ex.overdueExams, by push_cast [DEFAULT_RISK_CONFIG]; ring⟩
    · exact ⟨0, by norm_num⟩
  · split
    · exact ⟨10, by norm_num [DEFAULT_RISK_CONFIG]⟩
    · exact ⟨0, by norm_num⟩

theorem halfIntegral_clamp {q : ℚ} (hq : halfIntegral q) :
    halfIntegral (jmin 100 (jmax 0 q)) := by
  by_cases h1 : (0 : ℚ) ≤ q
  · by_cases h2 : (100 : ℚ) ≤ jmax 0 q
    · rw [jmin, if_pos h2]
      exact ⟨200, by norm_num⟩
    · rw [jmin, if_neg h2, jmax, if_pos h1]
      exact hq
  · have h0 : jmax 0 q = 0 := by rw [jmax, if_neg h1]
    rw [jmin, h0, if_neg (by norm_num)]
    exact ⟨0, by norm_num⟩

/-- The two-decimal rounding of `calculateRiskScore` is exact on half-integer
scores. -/
theorem round2_exact {q : ℚ} (hq : halfIntegral q) :
    ((jround (q * 100) : ℤ) : ℚ) / 100 = q := by
  obtain ⟨k, rfl⟩ := hq
  have h : (k : ℚ) / 2 * 100 = ((50 * k : ℤ) : ℚ) := by push_cast; ring
  rw [h, jround_int]
  push_cast
  field_simp
  ring

/-- C8: at the default configuration the returned risk score always satisfies
the invariants: the value lies in [0, 100]; the level is the function of the
value given by the configured boundaries (≤ 29 low, ≤ 59 moderate, else
high); and the reasons list is nonempty whenever the value is positive. -/
theorem C8_risk_invariants (adh : AdherenceAnalysis) (vit : VitalsAnalysis)
    (ex : ExamsAnalysis) :
    (0 ≤ (calculateRiskScore DEFAULT_RISK_CONFIG adh vit ex).value ∧
      (calculateRiskScore DEFAULT_RISK_CONFIG adh vit ex).value ≤ 100) ∧
    (calculateRiskScore DEFAULT_RISK_CONFIG adh vit ex).level =
      (if (calculateRiskScore DEFAULT_RISK_CONFIG adh vit ex).value ≤ 29 then RiskLevel.low
       else if (calculateRiskScore DEFAULT_RISK_CONFIG adh vit ex).value ≤ 59 then
         RiskLevel.moderate
       else RiskLevel.high) ∧
    (0 < (calculateRiskScore DEFAULT_RISK_CONFIG adh vit ex).value →
      (calculateRiskScore DEFAULT_RISK_CONFIG adh vit ex).reasons ≠ []) := by
  have hval : (calculateRiskScore DEFAULT_RISK_CONFIG adh vit ex).value =
      jmin 100 (jmax 0 (rawRisk DEFAULT_RISK_CONFIG adh vit ex).1) := by
    rw [calculateRiskScore]
    exact round2_exact (halfIntegral_clamp (halfIntegral_raw adh vit ex))
  have hlvl : (calculateRiskScore DEFAULT_RISK_CONFIG adh vit ex).level =
      (if jmin 100 (jmax 0 (rawRisk DEFAULT_RISK_CONFIG adh vit ex).1) ≤ 29 then RiskLevel.low
       else if jmin 100 (jmax 0 (rawRisk DEFAULT_RISK_CONFIG adh vit ex).1) ≤ 59 then
         RiskLevel.moderate
       else RiskLevel.high) := rfl
  refine ⟨?_, ?_, ?_⟩
  · rw [hval, jmin, jmax]
    constructor <;> split <;> split <;> linarith
  · rw [hlvl, hval]
  · intro hpos
    intro hnil
    have hr : (rawRisk DEFAULT_RISK_CONFIG adh vit ex).2 = [] := hnil
    have hscore : (rawRisk DEFAULT_RISK_CONFIG adh vit ex).1 = 0 := by
      have hd := rawRisk_reasons_decomp DEFAULT_RISK_CONFIG adh vit ex
      rw [hr] at hd
      have h4 := hd.symm
      rcases List.append_eq_nil.1 h4 with ⟨h123, hp4⟩
      rcases List.append_eq_nil.1 h123 with ⟨h12, hp3⟩
      rcases List.append_eq_nil.1 h12 with ⟨hp1, hp2⟩
      rw [rawRisk_score_decomp]
      have ha : (adherencePart DEFAULT_RISK_CONFIG adh).1 = 0 := by
        rcases hst : adh.adherenceStatus
        · simp [adherencePart, hst]
        · simp [adherencePart, hst] at hp1
        · simp [adherencePart, hst] at hp1
      have hfl : vit.flagDetails = [] := List.map_eq_nil_iff.1 hp2
      have ho : ¬ 0 < ex.overdueExams := by
        intro hx
        rw [if_pos hx] at hp3
        simp at hp3
      have hpend : ¬ 3 < ex.pendingExams := by
        intro hx
        rw [if_pos hx] at hp4
        simp at hp4
      rw [ha, hfl, if_neg ho, if_neg hpend]
      simp
    rw [hval, hscore] at hpos
    rw [jmin, jmax] at hpos
    norm_num at hpos

def aBadRec : AdherenceAnalysis :=
  { days := 30, totalReminders := 10, taken := 0, late := 0, missed := 10
  , adherenceRate := 0, adherenceStatus := .bad }

def vEmptyRec : VitalsAnalysis := { lastMeasurements := {}, flags := [], flagDetails := [] }

/-- Witness for C8 at a concrete bad-adherence input whose value 25 is
positive, discharging the positivity hypothesis of the reasons invariant. -/
theorem C8_risk_invariants_witness :
    0 < (calculateRiskScore DEFAULT_RISK_CONFIG aBadRec vEmptyRec eZeroRec).value ∧
    (calculateRiskScore DEFAULT_RISK_CONFIG aBadRec vEmptyRec eZeroRec).reasons ≠ [] := by
  have hpos : 0 < (calculateRiskScore DEFAULT_RISK_CONFIG aBadRec vEmptyRec eZeroRec).value := by
    rw [calculateRiskScore, rawRisk_score_decomp]
    norm_num [vEmptyRec, eZeroRec, adherencePart, aBadRec, DEFAULT_RISK_CONFIG,
      jmin, jmax, jround_eq]
  exact ⟨hpos, (C8_risk_invariants aBadRec vEmptyRec eZeroRec).2.2 hpos⟩

end MedicAI
